import Mathlib

/-!
# Verification of the Aither agent orchestration layer

A shallow embedding, in Lean 4, of the agent orchestration and
execution-safety layer of the Aither repository: the base agent types and
risk scorer, the agent registry, the capability-based router
(`executePlan` / `simulatePlan`), the Stake and Trade agents, and the
router's per-user intent memory.

JavaScript numbers are modeled as rationals (`Rat`); `NaN` does not arise
on any code path a theorem below depends on.  JS `Map` objects are
modeled as insertion-ordered association lists, matching the iteration
order guaranteed by the JS specification.  Promise-returning methods that
can reject are modeled with `Except String`, the error being the thrown
message.  Sources of nondeterminism (`Date.now()`, `Math.random()`,
generated transaction hashes) are passed in as explicit parameters.
-/

set_option maxHeartbeats 1000000

/-! ## Base agent types (src/unnamed/part_007) -/

inductive RiskLevel where
  | low
  | medium
  | high
  | critical
  deriving DecidableEq, Repr

/-- The 'low' | 'medium' | 'high' string union used for intent priority. -/
inductive Priority where
  | low
  | medium
  | high
  deriving DecidableEq, Repr

/-- An untyped value of the `Record<string, unknown>` parameter bag, as far
as the embedded code inspects it: a string, an array of strings, or some
other non-nullish value (number, boolean, object).  `null` and `undefined`
are both modeled by `none` at the use sites, matching the `?.` operator. -/
inductive JSVal where
  | str (s : String)
  | list (xs : List String)
  | other
  deriving DecidableEq, Repr

/-- The `parameters : Record<string, unknown>` bag of an intent, restricted
to the keys that the embedded code actually reads.  A missing key is
`none`.  Keys the code only compares or interpolates are typed by the shape
the code expects; `tokens` and `transactionHash` keep the untyped `JSVal`
form because the Research and Analytics agents call array/string methods on
them, which throws for an ill-typed value. -/
structure IntentParameters where
  operation : Option String := none
  amount : Option String := none
  validatorId : Option String := none
  validatorAddress : Option String := none
  positionId : Option String := none
  tokenIn : Option String := none
  tokenOut : Option String := none
  amountIn : Option String := none
  amountOutMin : Option String := none
  slippage : Option Rat := none
  preferredDex : Option String := none
  timeframe : Option String := none
  includeStaking : Option Bool := none
  includeTransactions : Option Bool := none
  query : Option String := none
  tokens : Option JSVal := none
  protocols : Option (List String) := none
  transactionHash : Option JSVal := none
  userAddress : Option String := none
  deriving DecidableEq, Repr

structure AgentIntent where
  id : String
  userAddress : String
  description : String
  parameters : IntentParameters
  maxGas : Rat
  maxValue : Rat
  deadline : Rat
  slippage : Option Rat := none
  priority : Option Priority := none
  deriving DecidableEq, Repr

structure CallData where
  target : String
  data : String
  value : Rat
  description : String
  gasLimit : Option Rat := none
  deriving DecidableEq, Repr

structure CallResult where
  success : Bool
  gasUsed : Rat
  returnData : Option String := none
  error : Option String := none
  deriving DecidableEq, Repr

structure SimulationResult where
  success : Bool
  gasEstimate : Rat
  valueEstimate : Rat
  risk : RiskLevel
  calls : List CallData
  justification : String
  warnings : List String
  confidence : Rat
  deriving DecidableEq, Repr

structure ExecutionResult where
  success : Bool
  transactionHash : Option String := none
  gasUsed : Option Rat := none
  valueTransferred : Option Rat := none
  calls : List CallResult
  error : Option String := none
  timestamp : Nat
  explorerUrl : Option String := none
  deriving DecidableEq, Repr

/-- The checks of `AgentIntentSchema` (Zod): `maxGas` positive, `maxValue`
nonnegative, optional `slippage` within `[0, 100]`.  The remaining fields are
type-level constraints that always hold in this typed embedding. -/
def intentSchemaValid (i : AgentIntent) : Bool :=
  decide (0 < i.maxGas) && decide (0 ≤ i.maxValue) &&
    (match i.slippage with
     | none => true
     | some s => decide (0 ≤ s) && decide (s ≤ 100))

/-- `BaseAgent.validateIntent`: throws on a schema violation.  The detailed
Zod error text appended after "Invalid intent: " is modeled by the constant
message "Invalid intent". -/
def validateIntent (i : AgentIntent) : Except String Unit :=
  if intentSchemaValid i then Except.ok () else Except.error "Invalid intent"

/-- `BaseAgent.calculateRisk`, translated clause by clause from the source. -/
def calculateRisk (valueAtRisk complexity : Rat) (priceImpact : Rat := 0) :
    RiskLevel :=
  let riskScore : Rat := 0
  let riskScore := riskScore +
    (if valueAtRisk > 10000 then (40 : Rat)
     else if valueAtRisk > 1000 then 20
     else if valueAtRisk > 100 then 10
     else 0)
  let riskScore := riskScore + min (complexity * 10) 30
  let riskScore := riskScore + min (priceImpact * 100) 30
  if riskScore ≥ 70 then RiskLevel.critical
  else if riskScore ≥ 50 then RiskLevel.high
  else if riskScore ≥ 25 then RiskLevel.medium
  else RiskLevel.low

/-- `BaseAgent.generateExplorerUrl` with the default explorer base URL (the
`SOMNIA_EXPLORER_URL` environment override is not modeled). -/
def generateExplorerUrl (txHash : String) : String :=
  "https://explorer.testnet.somnia.network/tx/" ++ txHash

/-- Spec-side formula for the risk score: the value tier plus the capped
complexity and price-impact contributions, written from the spec's words. -/
def riskSpecScore (valueAtRisk complexity priceImpact : Rat) : Rat :=
  (if valueAtRisk > 10000 then (40 : Rat)
   else if valueAtRisk > 1000 then 20
   else if valueAtRisk > 100 then 10
   else 0)
  + min (complexity * 10) 30 + min (priceImpact * 100) 30

/-- Spec-side thresholds: score ≥ 70 CRITICAL, ≥ 50 HIGH, ≥ 25 MEDIUM,
else LOW, written from the spec's words. -/
def riskSpecLevel (score : Rat) : RiskLevel :=
  if score ≥ 70 then RiskLevel.critical
  else if score ≥ 50 then RiskLevel.high
  else if score ≥ 25 then RiskLevel.medium
  else RiskLevel.low

/-- C1: `calculateRisk` computes, for all numeric inputs, exactly the
spec's tiered score (value tier + min(complexity*10, 30) +
min(priceImpact*100, 30)) and maps it through the thresholds 70/50/25 to
CRITICAL/HIGH/MEDIUM/LOW; the price-impact argument defaults to 0. -/
theorem calculateRisk_matches_spec (valueAtRisk complexity priceImpact : Rat) :
    calculateRisk valueAtRisk complexity priceImpact =
      riskSpecLevel (riskSpecScore valueAtRisk complexity priceImpact)
    ∧ calculateRisk valueAtRisk complexity =
      riskSpecLevel (riskSpecScore valueAtRisk complexity 0) := by
  constructor <;>
    simp only [calculateRisk, riskSpecLevel, riskSpecScore, zero_add, add_assoc]

/-! ## JS `Map` model: insertion-ordered association list -/

/-- JS `Map.prototype.set`: update in place if the key exists (keeping its
position), otherwise append at the end. -/
def mapSet {α : Type} (m : List (String × α)) (k : String) (v : α) :
    List (String × α) :=
  if m.any (fun p => p.1 == k) then
    m.map (fun p => if p.1 == k then (k, v) else p)
  else m ++ [(k, v)]

/-- JS `Map.prototype.get` (`undefined` modeled as `none`). -/
def mapGet {α : Type} (m : List (String × α)) (k : String) : Option α :=
  (m.find? (fun p => p.1 == k)).map Prod.snd

/-- JS `Map.prototype.delete`. -/
def mapDelete {α : Type} (m : List (String × α)) (k : String) :
    List (String × α) :=
  m.filter (fun p => p.1 != k)

/-- JS `Map.prototype.values` (insertion order). -/
def mapValues {α : Type} (m : List (String × α)) : List α :=
  m.map Prod.snd

theorem find?_map_invariant {α : Type} (u : String × α → String × α)
    (q : String × α → Bool) (hq : ∀ p, q (u p) = q p)
    (hid : ∀ p, q p = true → u p = p) (m : List (String × α)) :
    (m.map u).find? q = m.find? q := by
  induction m with
  | nil => rfl
  | cons p rest ih =>
    by_cases h : q p
    · simp [List.find?, hq, h, hid p h]
    · have h' : q p = false := by simpa using h
      simp [List.find?, hq, h', ih]

theorem find?_cons_false {α : Type} {q : String × α → Bool}
    {p : String × α} (hq : q p = false) (l : List (String × α)) :
    List.find? q (p :: l) = List.find? q l := by
  simp [List.find?, hq]

theorem find?_cons_true {α : Type} {q : String × α → Bool}
    {p : String × α} (hq : q p = true) (l : List (String × α)) :
    List.find? q (p :: l) = some p := by
  simp [List.find?, hq]

theorem find?_map_update {α : Type} (k : String) (v : α)
    (m : List (String × α)) (h : m.any (fun p => p.1 == k) = true) :
    (m.map (fun p => if p.1 == k then (k, v) else p)).find?
      (fun p => p.1 == k) = some (k, v) := by
  induction m with
  | nil => simp at h
  | cons p rest ih =>
    by_cases hp : (p.1 == k) = true
    · rw [List.map_cons, if_pos hp, find?_cons_true (by simp)]
    · have hp' : (p.1 == k) = false := by simpa using hp
      simp only [List.any_cons, hp', Bool.false_or] at h
      rw [List.map_cons, if_neg hp, find?_cons_false hp', ih h]

theorem mapGet_mapSet_self {α : Type} (m : List (String × α)) (k : String)
    (v : α) : mapGet (mapSet m k v) k = some v := by
  unfold mapSet mapGet
  by_cases h : m.any (fun p => p.1 == k)
  · rw [if_pos h, find?_map_update k v m h, Option.map_some']
  · have hall : ∀ p ∈ m, ¬ ((p.1 == k) = true) := by
      intro p hp hc
      exact h (List.any_eq_true.2 ⟨p, hp, hc⟩)
    rw [if_neg h, List.find?_append, List.find?_eq_none.2 hall]
    simp [List.find?]

theorem mapGet_mapSet_ne {α : Type} (m : List (String × α)) (k k' : String)
    (v : α) (h : k ≠ k') : mapGet (mapSet m k v) k' = mapGet m k' := by
  unfold mapSet mapGet
  by_cases hm : m.any (fun p => p.1 == k)
  · rw [if_pos hm, find?_map_invariant _ _ ?_ ?_]
    · intro p
      by_cases hp : (p.1 == k) = true
      · have hk : p.1 = k := by simpa using hp
        simp [hp, hk, h]
      · simp [hp]
    · intro p hp
      by_cases hpk : (p.1 == k) = true
      · have h1 : p.1 = k := by simpa using hpk
        have h2 : p.1 = k' := by simpa using hp
        exact absurd (h1 ▸ h2) h
      · simp [hpk]
  · rw [if_neg hm, List.find?_append]
    have hkk : (k == k') = false := beq_eq_false_iff_ne.2 h
    have hone : List.find? (fun p => p.1 == k') [(k, v)] = none := by
      simp [List.find?, hkk]
    rw [hone]
    cases List.find? (fun p => p.1 == k') m <;> simp

theorem mapGet_mapDelete_self {α : Type} (m : List (String × α))
    (k : String) : mapGet (mapDelete m k) k = none := by
  unfold mapDelete mapGet
  rw [List.find?_eq_none.2]
  · rfl
  · intro p hp
    have := (List.mem_filter.1 hp).2
    simp only [bne_iff_ne, ne_eq] at this
    simpa using this

/-! ## Agents and the agent registry (src/unnamed/part_007) -/

/-- An agent: identity, declared capabilities, and the two fallible public
methods.  `Except.error` models a rejected promise carrying the thrown
message. -/
structure Agent where
  id : String
  name : String
  capabilities : List String
  simulate : AgentIntent → Except String SimulationResult
  execute : AgentIntent → Except String ExecutionResult

/-- `AgentRegistry`: the private `agents = new Map<string, Agent>()`. -/
abbrev AgentRegistry := List (String × Agent)

def AgentRegistry.register (reg : AgentRegistry) (agent : Agent) :
    AgentRegistry :=
  mapSet reg agent.id agent

def AgentRegistry.get (reg : AgentRegistry) (id : String) : Option Agent :=
  mapGet reg id

def AgentRegistry.getByCapability (reg : AgentRegistry)
    (capability : String) : List Agent :=
  (mapValues reg).filter (fun agent => agent.capabilities.contains capability)

def AgentRegistry.getAll (reg : AgentRegistry) : List Agent :=
  mapValues reg

def AgentRegistry.unregister (reg : AgentRegistry) (id : String) :
    AgentRegistry :=
  mapDelete reg id

/-- One call against the registry's public mutating interface. -/
inductive RegistryOp where
  | register (agent : Agent)
  | unregister (id : String)

def applyOp (reg : AgentRegistry) : RegistryOp → AgentRegistry
  | RegistryOp.register a => reg.register a
  | RegistryOp.unregister id => reg.unregister id

/-- Registry state reached from the empty registry by a call sequence. -/
def applyOps (ops : List RegistryOp) : AgentRegistry :=
  ops.foldl applyOp []

/-- Well-formedness of a registry state: keys are distinct and each entry is
stored under its agent's id. -/
def RegWF (reg : AgentRegistry) : Prop :=
  (reg.map Prod.fst).Nodup ∧ ∀ p ∈ reg, p.1 = p.2.id

theorem mapSet_keys_of_any {α : Type} (m : List (String × α)) (k : String)
    (v : α) (h : m.any (fun p => p.1 == k) = true) :
    (mapSet m k v).map Prod.fst = m.map Prod.fst := by
  unfold mapSet
  rw [if_pos h, List.map_map]
  apply List.map_congr_left
  intro p _
  by_cases hp : (p.1 == k) = true
  · have : p.1 = k := by simpa using hp
    simp [Function.comp, hp, this]
  · simp [Function.comp, hp]

theorem regWF_register {reg : AgentRegistry} (h : RegWF reg) (a : Agent) :
    RegWF (reg.register a) := by
  obtain ⟨hnd, hkey⟩ := h
  unfold AgentRegistry.register
  by_cases hm : reg.any (fun p => p.1 == a.id)
  · constructor
    · rw [mapSet_keys_of_any _ _ _ hm]; exact hnd
    · intro p hp
      unfold mapSet at hp
      rw [if_pos hm] at hp
      obtain ⟨q, hq, hpq⟩ := List.mem_map.1 hp
      by_cases hqk : (q.1 == a.id) = true
      · rw [if_pos hqk] at hpq; subst hpq; rfl
      · rw [if_neg hqk] at hpq; subst hpq; exact hkey q hq
  · constructor
    · unfold mapSet
      rw [if_neg hm, List.map_append, List.nodup_append]
      refine ⟨hnd, by simp, ?_⟩
      intro k hk
      simp only [List.map_cons, List.map_nil, List.mem_singleton]
      intro hk2
      subst hk2
      obtain ⟨p, hp, hpk⟩ := List.mem_map.1 hk
      exact hm (List.any_eq_true.2 ⟨p, hp, by simp [hpk]⟩)
    · intro p hp
      unfold mapSet at hp
      rw [if_neg hm] at hp
      rcases List.mem_append.1 hp with hp1 | hp2
      · exact hkey p hp1
      · simp only [List.mem_singleton] at hp2
        subst hp2; rfl

theorem regWF_unregister {reg : AgentRegistry} (h : RegWF reg)
    (id : String) : RegWF (reg.unregister id) := by
  obtain ⟨hnd, hkey⟩ := h
  refine ⟨?_, fun p hp => hkey p (List.mem_of_mem_filter hp)⟩
  exact List.Nodup.sublist
    (List.Sublist.map Prod.fst (List.filter_sublist _)) hnd

theorem regWF_applyOps (ops : List RegistryOp) : RegWF (applyOps ops) := by
  suffices h : ∀ reg, RegWF reg → RegWF (ops.foldl applyOp reg) by
    exact h [] ⟨by simp, by simp⟩
  induction ops with
  | nil => intro reg h; exact h
  | cons op rest ih =>
    intro reg h
    rcases op with a | id
    · exact ih _ (regWF_register h a)
    · exact ih _ (regWF_unregister h id)

theorem mem_values_iff {reg : AgentRegistry} (h : RegWF reg) (a : Agent) :
    a ∈ mapValues reg ↔ (a.id, a) ∈ reg := by
  unfold mapValues
  constructor
  · intro ha
    obtain ⟨p, hp, hpa⟩ := List.mem_map.1 ha
    have hk := h.2 p hp
    have : p = (a.id, a) := by
      cases p; simp only at hpa hk; subst hpa; subst hk; rfl
    exact this ▸ hp
  · intro ha
    exact List.mem_map.2 ⟨(a.id, a), ha, rfl⟩

theorem mapGet_of_mem_nodup {α : Type} {m : List (String × α)} {k : String}
    {v : α} (hnd : (m.map Prod.fst).Nodup) (hmem : (k, v) ∈ m) :
    mapGet m k = some v := by
  induction m with
  | nil => simp at hmem
  | cons p rest ih =>
    rcases List.mem_cons.1 hmem with rfl | hmem2
    · unfold mapGet
      rw [find?_cons_true (by simp)]
      rfl
    · have hk : p.1 ≠ k := by
        intro hpk
        have : p.1 ∉ rest.map Prod.fst := (List.nodup_cons.1 hnd).1
        exact this (hpk ▸ List.mem_map.2 ⟨(k, v), hmem2, rfl⟩)
      unfold mapGet
      rw [find?_cons_false (by simpa using hk)]
      exact ih (List.nodup_cons.1 hnd).2 hmem2

/-- C6: over every registry state reachable by register/unregister calls,
`getByCapability c` returns exactly the registered agents whose capability
list contains `c`, in registration (insertion) order: membership is
characterized, the result is an order-preserving sublist of `getAll`,
the result is empty (not an error) when no registered agent declares `c`,
and registering two agents that both declare `c` and querying returns both
in registration order. -/
theorem getByCapability_exact (ops : List RegistryOp) (c : String) :
    (∀ a, a ∈ (applyOps ops).getByCapability c ↔
        a ∈ (applyOps ops).getAll ∧ c ∈ a.capabilities)
    ∧ ((applyOps ops).getByCapability c).Sublist ((applyOps ops).getAll)
    ∧ ((∀ a ∈ (applyOps ops).getAll, c ∉ a.capabilities) →
        (applyOps ops).getByCapability c = [])
    ∧ (∀ a₁ a₂ : Agent, a₁.id ≠ a₂.id → c ∈ a₁.capabilities →
        c ∈ a₂.capabilities →
        (AgentRegistry.register (AgentRegistry.register [] a₁) a₂).getByCapability
          c = [a₁, a₂]) := by
  refine ⟨?_, ?_, ?_, ?_⟩
  · intro a
    unfold AgentRegistry.getByCapability AgentRegistry.getAll
    rw [List.mem_filter]
    simp
  · exact List.filter_sublist _
  · intro h
    unfold AgentRegistry.getByCapability
    rw [List.filter_eq_nil_iff]
    intro a ha
    simpa using h a ha
  · intro a₁ a₂ h hc1 hc2
    have h12 : (a₁.id == a₂.id) = false := beq_eq_false_iff_ne.2 h
    have hb1 : a₁.capabilities.contains c = true := by simpa using hc1
    have hb2 : a₂.capabilities.contains c = true := by simpa using hc2
    simp [AgentRegistry.register, mapSet, AgentRegistry.getByCapability,
      mapValues, h12, List.filter, hb1, hb2, hc1, hc2]

/-- C10: the registry keys agents by id — every reachable state has
pairwise-distinct keys — and registering an agent whose id collides with an
already registered, different agent replaces it: `get` then returns the
newer agent, and the older one appears neither in `getAll` nor in any
`getByCapability` result. -/
theorem register_same_id_replaces (ops : List RegistryOp) (a₁ a₂ : Agent)
    (hid : a₁.id = a₂.id) (hne : a₁ ≠ a₂) :
    ((applyOps ops).map Prod.fst).Nodup
    ∧ (((applyOps ops).register a₁).register a₂).get a₁.id = some a₂
    ∧ a₁ ∉ (((applyOps ops).register a₁).register a₂).getAll
    ∧ ∀ c, a₁ ∉ (((applyOps ops).register a₁).register a₂).getByCapability c := by
  have hwf : RegWF (applyOps ops) := regWF_applyOps ops
  have hwf2 : RegWF (((applyOps ops).register a₁).register a₂) :=
    regWF_register (regWF_register hwf a₁) a₂
  have hget : (((applyOps ops).register a₁).register a₂).get a₁.id = some a₂ := by
    unfold AgentRegistry.get AgentRegistry.register
    rw [hid]
    exact mapGet_mapSet_self _ _ _
  have hnotall : a₁ ∉ (((applyOps ops).register a₁).register a₂).getAll := by
    intro hmem
    have hpair := (mem_values_iff hwf2 a₁).1 hmem
    have hthis : (((applyOps ops).register a₁).register a₂).get a₁.id
        = some a₁ := mapGet_of_mem_nodup hwf2.1 hpair
    rw [hget] at hthis
    exact hne (Option.some.inj hthis).symm
  refine ⟨hwf.1, hget, hnotall, ?_⟩
  intro c hmem
  exact hnotall (List.mem_of_mem_filter hmem)

/-- Concrete agents used by the closed witness instances below. -/
def demoSimResult : SimulationResult :=
  { success := true, gasEstimate := 1000, valueEstimate := 5, risk := RiskLevel.low,
    calls := [], justification := "demo", warnings := [], confidence := 9/10 }

def demoAgentA : Agent :=
  { id := "stake-agent", name := "Stake Agent", capabilities := ["stake", "unstake"],
    simulate := fun _ => Except.ok demoSimResult,
    execute := fun _ => Except.ok { success := true, calls := [], timestamp := 0 } }

def demoAgentB : Agent :=
  { id := "stake-agent-2", name := "Stake Agent 2", capabilities := ["stake"],
    simulate := fun _ => Except.ok demoSimResult,
    execute := fun _ => Except.ok { success := true, calls := [], timestamp := 0 } }

def demoAgentB' : Agent :=
  { id := "stake-agent", name := "Replacement Stake Agent", capabilities := ["stake"],
    simulate := fun _ => Except.ok demoSimResult,
    execute := fun _ => Except.ok { success := true, calls := [], timestamp := 0 } }

/-- Witness for C6 at concrete inputs: both demo agents declare "stake" and
are returned in registration order. -/
theorem getByCapability_exact_witness :
    (AgentRegistry.register (AgentRegistry.register [] demoAgentA) demoAgentB).getByCapability
      "stake" = [demoAgentA, demoAgentB] :=
  (getByCapability_exact [] "stake").2.2.2 demoAgentA demoAgentB
    (by decide) (by decide) (by decide)

/-- Witness for C10 at concrete inputs: re-registering under the id
"stake-agent" replaces the original agent. -/
theorem register_same_id_replaces_witness :
    (((applyOps []).register demoAgentA).register demoAgentB').get "stake-agent"
        = some demoAgentB'
    ∧ demoAgentA ∉ (((applyOps []).register demoAgentA).register demoAgentB').getAll := by
  have h := register_same_id_replaces [] demoAgentA demoAgentB' rfl
    (fun hcontra => by
      have := congrArg Agent.name hcontra
      simp [demoAgentA, demoAgentB'] at this)
  exact ⟨h.2.1, h.2.2.1⟩

/-! ## String and number helpers for the embedded JS code -/

/-- ASCII lowercasing of one character (JS `toLowerCase` on the ASCII
strings this code handles). -/
def toLowerChar (c : Char) : Char :=
  if 'A' ≤ c ∧ c ≤ 'Z' then Char.ofNat (c.toNat + 32) else c

/-- JS `String.prototype.toLowerCase` (ASCII range). -/
def toLowerStr (s : String) : String :=
  String.mk (s.data.map toLowerChar)

def startsWithL : List Char → List Char → Bool
  | [], _ => true
  | _ :: _, [] => false
  | a :: as, b :: bs => (a == b) && startsWithL as bs

def hasSubstrL (needle : List Char) : List Char → Bool
  | [] => needle.isEmpty
  | b :: bs => startsWithL needle (b :: bs) || hasSubstrL needle bs

/-- JS `String.prototype.includes`. -/
def strIncludes (s sub : String) : Bool :=
  hasSubstrL sub.data s.data

def digitsToNat : List Char → Nat → Nat
  | [], acc => acc
  | c :: cs, acc => digitsToNat cs (acc * 10 + (c.toNat - 48))

/-- JS `parseFloat`: longest leading `[+-]?digits[.digits]` prefix.  A string
with no leading numeric prefix yields `NaN`, modeled here as `0`; no theorem
below depends on the `NaN` case. -/
def parseFloat (s : String) : Rat :=
  let (sign, rest) :=
    match s.data with
    | '-' :: cs => ((-1 : Rat), cs)
    | '+' :: cs => ((1 : Rat), cs)
    | cs => ((1 : Rat), cs)
  let intPart := rest.takeWhile Char.isDigit
  let rest2 := rest.dropWhile Char.isDigit
  let fracPart :=
    match rest2 with
    | '.' :: cs => cs.takeWhile Char.isDigit
    | _ => []
  if intPart.isEmpty && fracPart.isEmpty then 0
  else
    sign * ((digitsToNat intPart 0 : Rat) +
      (digitsToNat fracPart 0 : Rat) / (10 ^ fracPart.length))

/-- Model of the ethers library's `parseUnits(s, 18)`: a decimal string with
at most 18 fractional digits scaled to an 18-decimals integer; any malformed
input throws. -/
def parseUnits18 (s : String) : Except String Int :=
  let (sign, rest) :=
    match s.data with
    | '-' :: cs => ((-1 : Int), cs)
    | cs => ((1 : Int), cs)
  let intPart := rest.takeWhile Char.isDigit
  let rest2 := rest.dropWhile Char.isDigit
  match rest2 with
  | [] =>
    if intPart.isEmpty then Except.error "invalid decimal string"
    else Except.ok (sign * (digitsToNat intPart 0 : Int) * 10 ^ 18)
  | '.' :: cs =>
    let fracPart := cs.takeWhile Char.isDigit
    if !(cs.dropWhile Char.isDigit).isEmpty || fracPart.isEmpty ||
        intPart.isEmpty || decide (fracPart.length > 18) then
      Except.error "invalid decimal string"
    else
      Except.ok (sign * ((digitsToNat intPart 0 : Int) * 10 ^ 18 +
        (digitsToNat fracPart 0 : Int) * 10 ^ (18 - fracPart.length)))
  | _ => Except.error "invalid decimal string"

/-- JS `a || b` on an optional number: `b` when `a` is missing, `NaN`, or
`0` (falsy); otherwise `a`. -/
def jsOrNum (a : Option Rat) (b : Rat) : Rat :=
  match a with
  | some v => if v == 0 then b else v
  | none => b

/-- JS `a || b` on an optional string: `b` when `a` is missing or empty. -/
def jsOrStr (a : Option String) (b : String) : String :=
  match a with
  | some v => if v == "" then b else v
  | none => b

/-! ## Router capability inference (src/ai/agents/router.ts) -/

/-- `CoreRouter.inferCapabilityFromStep`, translated branch by branch. -/
def inferCapabilityFromStep (step : AgentIntent) : String :=
  let operation := step.parameters.operation.getD ""
  let desc := toLowerStr step.description
  if strIncludes desc "swap" || operation == "swap" then "swap"
  else if operation == "stake" then "stake"
  else if operation == "unstake" then "unstake"
  else if operation == "claim_rewards" then "stake"
  else if strIncludes desc "portfolio" || operation == "get_balances" ||
      operation == "get_pnl" || operation == "get_positions" then
    "portfolio_analysis"
  else if operation == "market_data" || operation == "news" ||
      operation == "token_analysis" || operation == "protocol_analysis" then
    "market_research"
  else if operation == "decode_transaction" || operation == "analyze_gas" ||
      operation == "risk_assessment" || operation == "performance_report" then
    "transaction_analysis"
  else "unknown"

/-! ## Stake agent (src/unnamed/part_003) -/

structure StakeParameters where
  amount : String
  validatorId : Option String
  validatorAddress : Option String
  operation : String
  positionId : Option String
  deriving DecidableEq, Repr

structure ValidatorInfo where
  id : String
  name : String
  address : String
  commission : Rat
  apr : Rat
  uptime : Rat
  totalStaked : String
  maxCapacity : String
  active : Bool
  deriving DecidableEq, Repr

def validator1 : ValidatorInfo :=
  { id := "validator_1", name := "Somnia Validator Alpha",
    address := "0x1111111111111111111111111111111111111111",
    commission := 5, apr := 12, uptime := 199/2,
    totalStaked := "500000", maxCapacity := "1000000", active := true }

def validator2 : ValidatorInfo :=
  { id := "validator_2", name := "Somnia Validator Beta",
    address := "0x2222222222222222222222222222222222222222",
    commission := 3, apr := 14, uptime := 99,
    totalStaked := "300000", maxCapacity := "500000", active := true }

def validator3 : ValidatorInfo :=
  { id := "validator_3", name := "Somnia Validator Gamma",
    address := "0x3333333333333333333333333333333333333333",
    commission := 7, apr := 10, uptime := 98,
    totalStaked := "750000", maxCapacity := "2000000", active := true }

/-- The validator map built by `initializeValidators` (three `set` calls on
an empty map). -/
def stakeValidators : List (String × ValidatorInfo) :=
  mapSet (mapSet (mapSet [] "validator_1" validator1)
    "validator_2" validator2) "validator_3" validator3

/-- Stable insertion of one element into an already-sorted list: the new,
originally-later element goes after every element it ties with. -/
def insertSorted {α : Type} (le : α → α → Bool) (x : α) :
    List α → List α
  | [] => [x]
  | y :: ys => if le y x then y :: insertSorted le x ys else x :: y :: ys

/-- Model of JS `Array.prototype.sort` with a comparator
`(a, b) => key b - key a`, i.e. descending by key, as an insertion sort
with `le a b` meaning "a may come before b".  Elements whose keys tie end
up in reverse of their original order, unlike JS's stable sort; this is
immaterial here because every pair of keys compared in this development is
distinct. -/
def stableSort {α : Type} (le : α → α → Bool) (l : List α) : List α :=
  l.foldr (insertSorted le) []

def validatorScore (v : ValidatorInfo) : Rat :=
  v.apr * (1 - v.commission / 100) * (v.uptime / 100)

namespace StakeAgent

/-- `StakeAgent.selectBestValidator`: keep active validators with enough
remaining capacity, sort descending by score, take the first; throw when
none qualifies. -/
def selectBestValidator (validators : List (String × ValidatorInfo))
    (amount : Rat) : Except String String :=
  let activeValidators :=
    stableSort (fun a b => decide (validatorScore b ≤ validatorScore a))
      ((mapValues validators).filter (fun v =>
        v.active && decide (parseFloat v.totalStaked + amount ≤
          parseFloat v.maxCapacity)))
  match activeValidators with
  | [] => Except.error "No suitable validators available"
  | v :: _ => Except.ok v.id

def getValidatorName (validators : List (String × ValidatorInfo))
    (validatorId : String) : String :=
  ((mapGet validators validatorId).map ValidatorInfo.name).getD
    "Unknown Validator"

def estimateGas (operation : String) : Rat :=
  match operation with
  | "stake" => 250000
  | "unstake" => 180000
  | "claim_rewards" => 150000
  | _ => 200000

/-- `StakeAgent.parseStakeParameters` (falsy checks on `operation` and
`amount` cover both a missing key and an empty string). -/
def parseStakeParameters (intent : AgentIntent) :
    Except String StakeParameters :=
  let params := intent.parameters
  if params.operation.getD "" == "" then
    Except.error "Missing required parameter: operation"
  else
    let operation := params.operation.getD ""
    if operation == "stake" && (params.amount.getD "" == "") then
      Except.error "Amount required for staking operation"
    else
      Except.ok
        { amount := if params.amount.getD "" == "" then "0"
            else params.amount.getD "",
          validatorId := params.validatorId,
          validatorAddress := params.validatorAddress,
          operation := operation,
          positionId := params.positionId }

/-- Abstract rendering of `stakingInterface.encodeFunctionData('stake', ...)`. -/
def encodeStakeCall (validatorId : String) (amount : Int)
    (user : String) : String :=
  "stake(" ++ validatorId ++ "," ++ toString amount ++ "," ++ user ++ ")"

/-- Abstract rendering of `encodeFunctionData('requestUnstake', ...)`. -/
def encodeUnstakeCall (positionId : String) (amount : Int) : String :=
  "requestUnstake(" ++ positionId ++ "," ++ toString amount ++ ")"

/-- Abstract rendering of `encodeFunctionData('claimRewards', ...)`. -/
def encodeClaimCall (positionId : String) : String :=
  "claimRewards(" ++ positionId ++ ")"

/-- `StakeAgent.buildStakeCalls`. -/
def buildStakeCalls (validators : List (String × ValidatorInfo))
    (stakingAdapterAddress : String) (params : StakeParameters)
    (userAddress : String) : Except String (List CallData) :=
  match params.operation with
  | "stake" => do
    let validatorId ←
      match params.validatorId with
      | some v =>
        if v == "" then selectBestValidator validators (parseFloat params.amount)
        else Except.ok v
      | none => selectBestValidator validators (parseFloat params.amount)
    let amount ← parseUnits18 params.amount
    let call : CallData :=
      { target := stakingAdapterAddress,
        data := encodeStakeCall validatorId amount userAddress,
        value := 0,
        description := "Stake " ++ params.amount ++ " STT with validator "
          ++ getValidatorName validators validatorId,
        gasLimit := some (estimateGas params.operation) }
    Except.ok [call]
  | "unstake" => do
    match params.positionId with
    | none => Except.error "Position ID required for unstaking"
    | some pid =>
      if pid == "" then Except.error "Position ID required for unstaking"
      else do
        let unstakeAmount ← parseUnits18 params.amount
        let call : CallData :=
          { target := stakingAdapterAddress,
            data := encodeUnstakeCall pid unstakeAmount,
            value := 0,
            description := "Unstake " ++ params.amount ++ " STT from position "
              ++ pid.take 8 ++ "...",
            gasLimit := some (estimateGas params.operation) }
        Except.ok [call]
  | "claim_rewards" =>
    match params.positionId with
    | none => Except.error "Position ID required for claiming rewards"
    | some pid =>
      if pid == "" then Except.error "Position ID required for claiming rewards"
      else
        Except.ok
          [{ target := stakingAdapterAddress,
             data := encodeClaimCall pid,
             value := 0,
             description := "Claim rewards from position " ++ pid.take 8 ++ "...",
             gasLimit := some (estimateGas params.operation) }]
  | op => Except.error ("Unsupported operation: " ++ op)

/-- `StakeAgent.calculateStakeRisk`. -/
def calculateStakeRisk (validators : List (String × ValidatorInfo))
    (params : StakeParameters) : RiskLevel :=
  let valueAtRisk := parseFloat (jsOrStr (some params.amount) "0")
  let complexity : Rat := if params.operation == "unstake" then 2 else 1
  let complexity :=
    if params.operation == "stake" then
      match params.validatorId with
      | some vid =>
        if vid == "" then complexity
        else
          match mapGet validators vid with
          | some v => if v.uptime < 95 then complexity + 1 else complexity
          | none => complexity
      | none => complexity
    else complexity
  calculateRisk valueAtRisk complexity

/-- `StakeAgent.generateStakeJustification` (template strings rendered with
`toString` on rationals; the exact text is not load-bearing). -/
def generateStakeJustification (validators : List (String × ValidatorInfo))
    (params : StakeParameters) : Except String String :=
  match params.operation with
  | "stake" => do
    let validatorId ←
      match params.validatorId with
      | some v =>
        if v == "" then selectBestValidator validators (parseFloat params.amount)
        else Except.ok v
      | none => selectBestValidator validators (parseFloat params.amount)
    match mapGet validators validatorId with
    | some v =>
      Except.ok ("Staking " ++ params.amount ++ " STT with " ++ v.name
        ++ " (APR: " ++ toString v.apr ++ "%, Commission: "
        ++ toString v.commission ++ "%, Uptime: " ++ toString v.uptime
        ++ "%). This validator offers competitive rewards with good performance history.")
    | none => Except.ok ("Staking " ++ params.amount ++ " STT with selected validator.")
  | "unstake" =>
    Except.ok ("Requesting unstake of " ++ params.amount
      ++ " STT. Tokens will be available after the 21-day unbonding period. "
      ++ "Consider the opportunity cost of missing rewards during this period.")
  | "claim_rewards" =>
    Except.ok ("Claiming accumulated staking rewards. This will reset the reward "
      ++ "calculation period and transfer earned STT to your wallet.")
  | op => Except.ok ("Executing " ++ op ++ " operation.")

/-- `StakeAgent.calculateConfidence`. -/
def calculateConfidence (validators : List (String × ValidatorInfo))
    (params : StakeParameters) (risk : RiskLevel) : Rat :=
  let confidence : Rat := 9/10
  let confidence :=
    if params.operation == "stake" then
      match params.validatorId with
      | some vid =>
        if vid == "" then confidence
        else
          match mapGet validators vid with
          | some v =>
            let c := if v.uptime < 95 then confidence - 2/10 else confidence
            if v.commission > 10 then c - 1/10 else c
          | none => confidence
      | none => confidence
    else confidence
  let confidence :=
    match risk with
    | RiskLevel.high => confidence - 2/10
    | RiskLevel.critical => confidence - 4/10
    | RiskLevel.medium => confidence - 1/10
    | RiskLevel.low => confidence
  max (1/10) confidence

end StakeAgent

namespace StakeAgent

/-- The body of the `try` block of `StakeAgent.simulate`: any
`Except.error` here corresponds to a thrown error caught by the method's
`catch`. -/
def simulateBody (validators : List (String × ValidatorInfo))
    (stakingAdapterAddress : String) (intent : AgentIntent) :
    Except String SimulationResult := do
  let params ← parseStakeParameters intent
  let calls ← buildStakeCalls validators stakingAdapterAddress params
    intent.userAddress
  let risk := calculateStakeRisk validators params
  let justification ← generateStakeJustification validators params
  let warnings :=
    if params.operation == "stake" then
      (if parseFloat params.amount < 1 then
        ["Amount below minimum staking threshold"] else []) ++
      (if parseFloat params.amount > 1000 then
        ["Large staking amount - consider validator limits"] else [])
    else []
  let gasEstimate := estimateGas params.operation
  let confidence := calculateConfidence validators params risk
  Except.ok
    { success := true,
      gasEstimate := gasEstimate,
      valueEstimate := parseFloat (jsOrStr (some params.amount) "0"),
      risk := risk,
      calls := calls,
      justification := justification,
      warnings := warnings,
      confidence := confidence }

/-- `StakeAgent.simulate`: `validateIntent` runs before the `try` block, so
its error propagates; everything inside the `try` is converted by the
`catch` into a failed result. -/
def simulate (validators : List (String × ValidatorInfo))
    (stakingAdapterAddress : String) (intent : AgentIntent) :
    Except String SimulationResult := do
  validateIntent intent
  match simulateBody validators stakingAdapterAddress intent with
  | Except.ok r => Except.ok r
  | Except.error e =>
    Except.ok
      { success := false,
        gasEstimate := 0,
        valueEstimate := 0,
        risk := RiskLevel.high,
        calls := [],
        justification := "Failed to simulate "
          ++ jsOrStr intent.parameters.operation "staking operation"
          ++ ": " ++ e,
        warnings := ["Simulation failed - transaction may fail"],
        confidence := 0 }

/-- The body of the `try` block of `StakeAgent.execute`; `txHash` stands for
the randomly generated mock hash and `now` for `Date.now()`. -/
def executeBody (validators : List (String × ValidatorInfo))
    (stakingAdapterAddress : String) (txHash : String) (now : Nat)
    (intent : AgentIntent) : Except String ExecutionResult := do
  let params ← parseStakeParameters intent
  let calls ← buildStakeCalls validators stakingAdapterAddress params
    intent.userAddress
  let gasUsed := estimateGas params.operation * (9/10)
  Except.ok
    { success := true,
      transactionHash := some txHash,
      gasUsed := some gasUsed,
      valueTransferred := some (parseFloat (jsOrStr (some params.amount) "0")),
      calls := calls.map (fun _ =>
        { success := true,
          gasUsed := (⌊gasUsed / (calls.length : Rat)⌋ : Int),
          returnData := some "0x" }),
      timestamp := now,
      explorerUrl := some (generateExplorerUrl txHash) }

/-- `StakeAgent.execute`: `validateIntent` before the `try`, caught body. -/
def execute (validators : List (String × ValidatorInfo))
    (stakingAdapterAddress : String) (txHash : String) (now : Nat)
    (intent : AgentIntent) : Except String ExecutionResult := do
  validateIntent intent
  match executeBody validators stakingAdapterAddress txHash now intent with
  | Except.ok r => Except.ok r
  | Except.error e =>
    Except.ok
      { success := false,
        calls := [],
        error := some e,
        timestamp := now }

end StakeAgent

theorem parseFloat_500000 : parseFloat "500000" = 500000 := by
  have h : parseFloat "500000"
      = (1 : Rat) * (((500000 : Nat) : Rat) + ((0 : Nat) : Rat) / 10 ^ (0 : Nat)) := rfl
  rw [h]; norm_num

theorem parseFloat_1000000 : parseFloat "1000000" = 1000000 := by
  have h : parseFloat "1000000"
      = (1 : Rat) * (((1000000 : Nat) : Rat) + ((0 : Nat) : Rat) / 10 ^ (0 : Nat)) := rfl
  rw [h]; norm_num

theorem parseFloat_300000 : parseFloat "300000" = 300000 := by
  have h : parseFloat "300000"
      = (1 : Rat) * (((300000 : Nat) : Rat) + ((0 : Nat) : Rat) / 10 ^ (0 : Nat)) := rfl
  rw [h]; norm_num

theorem parseFloat_750000 : parseFloat "750000" = 750000 := by
  have h : parseFloat "750000"
      = (1 : Rat) * (((750000 : Nat) : Rat) + ((0 : Nat) : Rat) / 10 ^ (0 : Nat)) := rfl
  rw [h]; norm_num

theorem parseFloat_2000000 : parseFloat "2000000" = 2000000 := by
  have h : parseFloat "2000000"
      = (1 : Rat) * (((2000000 : Nat) : Rat) + ((0 : Nat) : Rat) / 10 ^ (0 : Nat)) := rfl
  rw [h]; norm_num

theorem score_v1_le_v2 : validatorScore validator1 ≤ validatorScore validator2 := by
  norm_num [validatorScore, validator1, validator2]

theorem score_v3_lt_v2 : validatorScore validator3 < validatorScore validator2 := by
  norm_num [validatorScore, validator3, validator2]

theorem score_v3_lt_v1 : validatorScore validator3 < validatorScore validator1 := by
  norm_num [validatorScore, validator3, validator1]

theorem stakeValidators_values :
    mapValues stakeValidators = [validator1, validator2, validator3] := rfl

theorem sorted_validators :
    stableSort (fun a b => decide (validatorScore b ≤ validatorScore a))
      [validator1, validator2, validator3]
      = [validator2, validator1, validator3] := by
  have d12 : decide (validatorScore validator1 ≤ validatorScore validator2)
      = true := decide_eq_true score_v1_le_v2
  have d23 : decide (validatorScore validator2 ≤ validatorScore validator3)
      = false := decide_eq_false (not_le.2 score_v3_lt_v2)
  have d13 : decide (validatorScore validator1 ≤ validatorScore validator3)
      = false := decide_eq_false (not_le.2 score_v3_lt_v1)
  simp [stableSort, insertSorted, d12, d23, d13]

/-- C7: over the built-in validator table, `selectBestValidator` keeps only
validators with enough remaining capacity, ranks them descending by
`apr * (1 - commission/100) * (uptime/100)`, and returns the top id: for
every amount within validator_2's remaining capacity (300000 staked of a
500000 cap, i.e. amount ≤ 200000) it returns "validator_2", and when no
validator has remaining capacity it throws
"No suitable validators available". -/
theorem selectBestValidator_spec (amount : Rat) :
    (amount ≤ 200000 →
      StakeAgent.selectBestValidator stakeValidators amount
        = Except.ok "validator_2")
    ∧ ((∀ v ∈ mapValues stakeValidators,
          ¬ (parseFloat v.totalStaked + amount ≤ parseFloat v.maxCapacity)) →
      StakeAgent.selectBestValidator stakeValidators amount
        = Except.error "No suitable validators available") := by
  constructor
  · intro h
    have c1 : (validator1.active && decide (parseFloat validator1.totalStaked
        + amount ≤ parseFloat validator1.maxCapacity)) = true := by
      simp only [validator1, parseFloat_500000, parseFloat_1000000,
        Bool.true_and]
      exact decide_eq_true (by linarith)
    have c2 : (validator2.active && decide (parseFloat validator2.totalStaked
        + amount ≤ parseFloat validator2.maxCapacity)) = true := by
      simp only [validator2, parseFloat_300000, parseFloat_500000,
        Bool.true_and]
      exact decide_eq_true (by linarith)
    have c3 : (validator3.active && decide (parseFloat validator3.totalStaked
        + amount ≤ parseFloat validator3.maxCapacity)) = true := by
      simp only [validator3, parseFloat_750000, parseFloat_2000000,
        Bool.true_and]
      exact decide_eq_true (by linarith)
    have hfilter : (mapValues stakeValidators).filter (fun v =>
        v.active && decide (parseFloat v.totalStaked + amount ≤
          parseFloat v.maxCapacity)) = [validator1, validator2, validator3] := by
      rw [stakeValidators_values]
      simp [List.filter_cons, c1, c2, c3]
    unfold StakeAgent.selectBestValidator
    rw [hfilter, sorted_validators]
    rfl
  · intro h
    have c1 := h validator1 (by rw [stakeValidators_values]; simp)
    have c2 := h validator2 (by rw [stakeValidators_values]; simp)
    have c3 := h validator3 (by rw [stakeValidators_values]; simp)
    have nc1 : (validator1.active && decide (parseFloat validator1.totalStaked
        + amount ≤ parseFloat validator1.maxCapacity)) = false := by
      simp only [Bool.and_eq_false_iff, decide_eq_false_iff_not]
      exact Or.inr c1
    have nc2 : (validator2.active && decide (parseFloat validator2.totalStaked
        + amount ≤ parseFloat validator2.maxCapacity)) = false := by
      simp only [Bool.and_eq_false_iff, decide_eq_false_iff_not]
      exact Or.inr c2
    have nc3 : (validator3.active && decide (parseFloat validator3.totalStaked
        + amount ≤ parseFloat validator3.maxCapacity)) = false := by
      simp only [Bool.and_eq_false_iff, decide_eq_false_iff_not]
      exact Or.inr c3
    have hfilter : (mapValues stakeValidators).filter (fun v =>
        v.active && decide (parseFloat v.totalStaked + amount ≤
          parseFloat v.maxCapacity)) = [] := by
      rw [stakeValidators_values]
      simp [List.filter_cons, nc1, nc2, nc3]
    unfold StakeAgent.selectBestValidator
    rw [hfilter]
    rfl

/-- Witness for C7: amount 100 is within validator_2's remaining capacity
and selects it; amount 2000000 exceeds every validator's remaining capacity
and the selection throws. -/
theorem selectBestValidator_spec_witness :
    StakeAgent.selectBestValidator stakeValidators 100
      = Except.ok "validator_2"
    ∧ StakeAgent.selectBestValidator stakeValidators 2000000
      = Except.error "No suitable validators available" := by
  constructor
  · exact (selectBestValidator_spec 100).1 (by norm_num)
  · refine (selectBestValidator_spec 2000000).2 ?_
    intro v hv
    rw [stakeValidators_values] at hv
    simp only [List.mem_cons, List.not_mem_nil, or_false] at hv
    rcases hv with rfl | rfl | rfl <;>
      simp only [validator1, validator2, validator3, parseFloat_500000,
        parseFloat_1000000, parseFloat_300000, parseFloat_750000,
        parseFloat_2000000] <;>
      norm_num

/-! ## Trade agent (src/unnamed/part_004) -/

structure SwapParameters where
  tokenIn : String
  tokenOut : String
  amountIn : String
  amountOutMin : Option String
  slippage : Option Rat := none
  deadline : Option Rat := none
  preferredDex : Option String := none
  deriving DecidableEq, Repr

structure TokenInfo where
  address : String
  symbol : String
  decimals : Nat
  priceUSD : Rat
  deriving DecidableEq, Repr

structure SwapQuote where
  amountOut : Rat
  priceImpact : Rat
  gasEstimate : Rat
  route : List String
  dexUsed : String
  deriving DecidableEq, Repr

/-- The token map built by `initializeSupportedTokens`. -/
def supportedTokens : List (String × TokenInfo) :=
  mapSet (mapSet (mapSet (mapSet []
    "0x0000000000000000000000000000000000000000"
    { address := "0x0000000000000000000000000000000000000000", symbol := "ETH",
      decimals := 18, priceUSD := 2000 })
    "0x1000000000000000000000000000000000000000"
    { address := "0x1000000000000000000000000000000000000000", symbol := "STT",
      decimals := 18, priceUSD := 1 })
    "0x2000000000000000000000000000000000000000"
    { address := "0x2000000000000000000000000000000000000000", symbol := "USDC",
      decimals := 6, priceUSD := 1 })
    "0x3000000000000000000000000000000000000000"
    { address := "0x3000000000000000000000000000000000000000", symbol := "WBTC",
      decimals := 8, priceUSD := 45000 }

namespace TradeAgent

/-- `TradeAgent.parseSwapParameters`; `now` stands for
`Math.floor(Date.now() / 1000)`. -/
def parseSwapParameters (now : Rat) (intent : AgentIntent) :
    Except String SwapParameters :=
  let params := intent.parameters
  if params.tokenIn.getD "" == "" || params.tokenOut.getD "" == "" ||
      params.amountIn.getD "" == "" then
    Except.error "Missing required swap parameters: tokenIn, tokenOut, amountIn"
  else
    let slippage := jsOrNum intent.slippage (jsOrNum params.slippage 1)
    let deadline := if intent.deadline == 0 then now + 1200 else intent.deadline
    Except.ok
      { tokenIn := params.tokenIn.getD "",
        tokenOut := params.tokenOut.getD "",
        amountIn := params.amountIn.getD "",
        amountOutMin := params.amountOutMin,
        slippage := some slippage,
        deadline := some deadline,
        preferredDex := params.preferredDex }

def getTokenSymbol (address : String) : String :=
  ((mapGet supportedTokens (toLowerStr address)).map TokenInfo.symbol).getD
    (address.take 6 ++ "...")

/-- `TradeAgent.getSwapQuote` (mock quote from the token table). -/
def getSwapQuote (params : SwapParameters) : Except String SwapQuote :=
  match mapGet supportedTokens (toLowerStr params.tokenIn),
      mapGet supportedTokens (toLowerStr params.tokenOut) with
  | some tokenInInfo, some tokenOutInfo =>
    let amountIn := parseFloat params.amountIn
    let exchangeRate := tokenInInfo.priceUSD / tokenOutInfo.priceUSD
    let amountOut := amountIn * exchangeRate
    let amountOutAfterFee := amountOut * (997/1000)
    let priceImpact := min ((amountIn / 100000) * 2) 15
    Except.ok
      { amountOut := amountOutAfterFee,
        priceImpact := priceImpact,
        gasEstimate := 180000,
        route := [params.tokenIn, params.tokenOut],
        dexUsed := "Demo AMM" }
  | _, _ => Except.error "Unsupported token pair"

/-- Abstract rendering of `swapInterface.encodeFunctionData('executeSwap', ...)`. -/
def encodeSwapCall (tokenIn tokenOut : String) (amountIn amountOutMin : Int)
    (recipient : String) (deadline : Rat) (preferredDex : String) : String :=
  "executeSwap(" ++ tokenIn ++ "," ++ tokenOut ++ "," ++ toString amountIn
    ++ "," ++ toString amountOutMin ++ "," ++ recipient ++ ","
    ++ toString deadline ++ "," ++ preferredDex ++ ")"

/-- `TradeAgent.buildSwapCalls` (the computed `amountOutMin` string is
rendered with `toString` on the rational; its text is not load-bearing). -/
def buildSwapCalls (swapAdapterAddress : String) (now : Rat)
    (params : SwapParameters) (userAddress : String) :
    Except String (List CallData) := do
  let quote ← getSwapQuote params
  let amountOutMin := jsOrStr params.amountOutMin
    (toString (quote.amountOut * (1 - (jsOrNum params.slippage 1) / 100)))
  let swapAmountIn ← parseUnits18 params.amountIn
  let swapAmountOutMin ← parseUnits18 amountOutMin
  let deadline := jsOrNum params.deadline (now + 1200)
  let preferredDex := jsOrStr params.preferredDex
    "0x0000000000000000000000000000000000000000000000000000000000000000"
  let call : CallData :=
    { target := swapAdapterAddress,
      data := encodeSwapCall params.tokenIn params.tokenOut swapAmountIn
        swapAmountOutMin userAddress deadline preferredDex,
      value := 0,
      description := "Swap " ++ params.amountIn ++ " "
        ++ getTokenSymbol params.tokenIn ++ " for "
        ++ getTokenSymbol params.tokenOut,
      gasLimit := some 200000 }
  Except.ok [call]

/-- `TradeAgent.calculateSwapRisk`. -/
def calculateSwapRisk (params : SwapParameters) (quote : SwapQuote) :
    RiskLevel :=
  let valueAtRisk := parseFloat params.amountIn *
    (((mapGet supportedTokens (toLowerStr params.tokenIn)).map
      TokenInfo.priceUSD).getD 1)
  let complexity : Rat := 1
  let priceImpact := quote.priceImpact / 100
  calculateRisk valueAtRisk complexity priceImpact

/-- `TradeAgent.generateSwapJustification` (numbers rendered with
`toString`; the text is not load-bearing). -/
def generateSwapJustification (params : SwapParameters)
    (quote : SwapQuote) : String :=
  "Executing swap of " ++ params.amountIn ++ " "
    ++ getTokenSymbol params.tokenIn ++ " for approximately "
    ++ toString quote.amountOut ++ " " ++ getTokenSymbol params.tokenOut
    ++ " via " ++ quote.dexUsed ++ ". Price impact: "
    ++ toString quote.priceImpact ++ "%. Gas estimate: "
    ++ toString quote.gasEstimate ++ " gas."

/-- `TradeAgent.calculateConfidence`. -/
def calculateConfidence (quote : SwapQuote) (risk : RiskLevel) : Rat :=
  let confidence : Rat := 9/10
  let confidence := confidence - min (quote.priceImpact / 100 * 2) (4/10)
  let confidence :=
    match risk with
    | RiskLevel.high => confidence - 2/10
    | RiskLevel.critical => confidence - 4/10
    | RiskLevel.medium => confidence - 1/10
    | RiskLevel.low => confidence
  max (1/10) confidence

/-- The body of the `try` block of `TradeAgent.simulate`. -/
def simulateBody (swapAdapterAddress : String) (now : Rat)
    (intent : AgentIntent) : Except String SimulationResult := do
  let params ← parseSwapParameters now intent
  let quote ← getSwapQuote params
  let calls ← buildSwapCalls swapAdapterAddress now params intent.userAddress
  let risk := calculateSwapRisk params quote
  let warnings :=
    (if quote.priceImpact > 5 then
      ["High price impact: " ++ toString quote.priceImpact ++ "%"] else []) ++
    (match params.slippage with
     | some s => if s != 0 && decide (s > 3) then
        ["High slippage tolerance: " ++ toString s ++ "%"] else []
     | none => [])
  let justification := generateSwapJustification params quote
  Except.ok
    { success := true,
      gasEstimate := quote.gasEstimate,
      valueEstimate := parseFloat params.amountIn,
      risk := risk,
      calls := calls,
      justification := justification,
      warnings := warnings,
      confidence := calculateConfidence quote risk }

/-- `TradeAgent.simulate`: `validateIntent` before the `try`, caught body. -/
def simulate (swapAdapterAddress : String) (now : Rat)
    (intent : AgentIntent) : Except String SimulationResult := do
  validateIntent intent
  match simulateBody swapAdapterAddress now intent with
  | Except.ok r => Except.ok r
  | Except.error e =>
    Except.ok
      { success := false,
        gasEstimate := 0,
        valueEstimate := 0,
        risk := RiskLevel.high,
        calls := [],
        justification := "Failed to simulate swap: " ++ e,
        warnings := ["Simulation failed - transaction may fail"],
        confidence := 0 }

/-- The body of the `try` block of `TradeAgent.execute`; `txHash` models the
random mock hash and `randGas` the `Math.floor(Math.random() * 50000)`
summand. -/
def executeBody (swapAdapterAddress : String) (now : Rat) (txHash : String)
    (randGas : Nat) (nowMs : Nat) (intent : AgentIntent) :
    Except String ExecutionResult := do
  let params ← parseSwapParameters now intent
  let calls ← buildSwapCalls swapAdapterAddress now params intent.userAddress
  let gasUsed : Rat := 150000 + randGas
  Except.ok
    { success := true,
      transactionHash := some txHash,
      gasUsed := some gasUsed,
      valueTransferred := some (parseFloat params.amountIn),
      calls := calls.map (fun _ =>
        { success := true,
          gasUsed := (⌊gasUsed / (calls.length : Rat)⌋ : Int),
          returnData := some "0x" }),
      timestamp := nowMs,
      explorerUrl := some (generateExplorerUrl txHash) }

/-- `TradeAgent.execute`: `validateIntent` before the `try`, caught body. -/
def execute (swapAdapterAddress : String) (now : Rat) (txHash : String)
    (randGas : Nat) (nowMs : Nat) (intent : AgentIntent) :
    Except String ExecutionResult := do
  validateIntent intent
  match executeBody swapAdapterAddress now txHash randGas nowMs intent with
  | Except.ok r => Except.ok r
  | Except.error e =>
    Except.ok
      { success := false,
        calls := [],
        error := some e,
        timestamp := nowMs }

end TradeAgent

/-! ## Portfolio, Analytics and Research agents (src/unnamed/part_005,
src/unnamed/part_006, src/ai/agents/research-agent.ts): only `simulate` is
embedded.  The Portfolio helpers are total, so its `catch` branch is
unreachable (but still embedded verbatim); the Analytics and Research
justification helpers call `.slice`/`.join` on untyped parameter values and
throw a TypeError for an ill-typed value, so their `catch` branches — which
return risk LOW — are reachable from schema-valid intents. -/

structure PortfolioParameters where
  operation : String
  timeframe : String
  includeStaking : Bool
  includeTransactions : Bool
  deriving DecidableEq, Repr

namespace PortfolioAgent

/-- `PortfolioAgent.parsePortfolioParameters` (total). -/
def parsePortfolioParameters (intent : AgentIntent) : PortfolioParameters :=
  let params := intent.parameters
  { operation := jsOrStr params.operation "get_balances",
    timeframe := jsOrStr params.timeframe "24h",
    includeStaking := params.includeStaking != some false,
    includeTransactions := params.includeTransactions == some true }

/-- `PortfolioAgent.generateJustification` (total). -/
def generateJustification (params : PortfolioParameters) : String :=
  match params.operation with
  | "get_balances" =>
    "Retrieving current token balances"
      ++ (if params.includeStaking then " and staking positions" else "")
      ++ " for comprehensive portfolio view."
  | "get_pnl" =>
    "Calculating profit/loss over " ++ params.timeframe
      ++ " timeframe, including trading gains, staking rewards, and gas costs."
  | "get_positions" =>
    "Analyzing all active positions including staking, liquidity pools, and lending protocols."
  | "get_history" =>
    "Fetching transaction history for the past " ++ params.timeframe
      ++ " to analyze portfolio activity."
  | _ => "Executing portfolio query operation."

/-- The body of the `try` block of `PortfolioAgent.simulate` (total). -/
def simulateBody (intent : AgentIntent) : Except String SimulationResult :=
  let params := parsePortfolioParameters intent
  Except.ok
    { success := true,
      gasEstimate := 50000,
      valueEstimate := 0,
      risk := RiskLevel.low,
      calls := [],
      justification := generateJustification params,
      warnings := [],
      confidence := 95/100 }

/-- `PortfolioAgent.simulate`: `validateIntent` before the `try`; the
`catch` converts a body error into a failed result with risk LOW. -/
def simulate (intent : AgentIntent) : Except String SimulationResult := do
  validateIntent intent
  match simulateBody intent with
  | Except.ok r => Except.ok r
  | Except.error e =>
    Except.ok
      { success := false,
        gasEstimate := 0,
        valueEstimate := 0,
        risk := RiskLevel.low,
        calls := [],
        justification := "Failed to simulate portfolio query: " ++ e,
        warnings := ["Query simulation failed"],
        confidence := 0 }

end PortfolioAgent

structure AnalyticsParameters where
  operation : String
  transactionHash : Option JSVal
  userAddress : Option String
  timeframe : String
  deriving DecidableEq, Repr

namespace AnalyticsAgent

/-- `AnalyticsAgent.parseAnalyticsParameters` (total). -/
def parseAnalyticsParameters (intent : AgentIntent) : AnalyticsParameters :=
  let params := intent.parameters
  { operation := jsOrStr params.operation "performance_report",
    transactionHash := params.transactionHash,
    userAddress := params.userAddress,
    timeframe := jsOrStr params.timeframe "7d" }

/-- `AnalyticsAgent.generateJustification`: `params.transactionHash?.slice(0,
10)` takes the first ten characters of a string or the first ten elements of
an array (rendered comma-separated by the template literal), renders a
missing hash as the JS string "undefined", and throws a TypeError for any
other value, whose engine-specific message is modeled by a constant. -/
def generateJustification (params : AnalyticsParameters) :
    Except String String :=
  match params.operation with
  | "decode_transaction" =>
    match params.transactionHash with
    | some (JSVal.str h) =>
      Except.ok ("Decoding transaction " ++ h.take 10
        ++ "... to extract operations, costs, and provide insights.")
    | some (JSVal.list xs) =>
      Except.ok ("Decoding transaction " ++ String.intercalate "," (xs.take 10)
        ++ "... to extract operations, costs, and provide insights.")
    | some JSVal.other =>
      Except.error "params.transactionHash?.slice is not a function"
    | none =>
      Except.ok ("Decoding transaction undefined"
        ++ "... to extract operations, costs, and provide insights.")
  | "analyze_gas" =>
    Except.ok ("Analyzing gas usage patterns over " ++ params.timeframe
      ++ " to identify optimization opportunities and cost savings.")
  | "performance_report" =>
    Except.ok ("Generating comprehensive performance report for "
      ++ params.timeframe
      ++ " including transaction metrics, P&L, and top operations.")
  | "risk_assessment" =>
    Except.ok "Evaluating portfolio risk across concentration, smart contracts, validators, and liquidity with mitigation strategies."
  | "optimization_suggestions" =>
    Except.ok "Analyzing current operations to provide actionable optimization suggestions for gas, strategy, and security."
  | _ => Except.ok "Executing analytics operation."

/-- The body of the `try` block of `AnalyticsAgent.simulate`; the
justification step can throw. -/
def simulateBody (intent : AgentIntent) : Except String SimulationResult := do
  let params := parseAnalyticsParameters intent
  let justification ← generateJustification params
  Except.ok
    { success := true,
      gasEstimate := 0,
      valueEstimate := 0,
      risk := RiskLevel.low,
      calls := [],
      justification := justification,
      warnings := [],
      confidence := 9/10 }

/-- `AnalyticsAgent.simulate`. -/
def simulate (intent : AgentIntent) : Except String SimulationResult := do
  validateIntent intent
  match simulateBody intent with
  | Except.ok r => Except.ok r
  | Except.error e =>
    Except.ok
      { success := false,
        gasEstimate := 0,
        valueEstimate := 0,
        risk := RiskLevel.low,
        calls := [],
        justification := "Failed to simulate analytics query: " ++ e,
        warnings := ["Analytics simulation failed"],
        confidence := 0 }

end AnalyticsAgent

structure ResearchParameters where
  operation : String
  query : String
  tokens : Option JSVal
  protocols : Option (List String)
  timeframe : String
  deriving DecidableEq, Repr

namespace ResearchAgent

/-- `ResearchAgent.parseResearchParameters` (total). -/
def parseResearchParameters (intent : AgentIntent) : ResearchParameters :=
  let params := intent.parameters
  { operation := jsOrStr params.operation "market_data",
    query := jsOrStr params.query (jsOrStr (some intent.description) ""),
    tokens := params.tokens,
    protocols := params.protocols,
    timeframe := jsOrStr params.timeframe "24h" }

/-- `ResearchAgent.generateJustification`: `params.tokens?.join(', ')`
throws a TypeError for any non-array value (modeled by a constant message),
while the index `params.tokens?.[0]` never throws — it yields the first
element of an array, the first character of a string, and `undefined`
otherwise. -/
def generateJustification (params : ResearchParameters) :
    Except String String :=
  match params.operation with
  | "market_data" =>
    match params.tokens with
    | some (JSVal.list ts) =>
      Except.ok ("Fetching real-time market data for "
        ++ jsOrStr (some (String.intercalate ", " ts)) "requested tokens"
        ++ " including price, volume, and sentiment.")
    | some _ =>
      Except.error "params.tokens?.join is not a function"
    | none =>
      Except.ok ("Fetching real-time market data for requested tokens"
        ++ " including price, volume, and sentiment.")
  | "news" =>
    Except.ok ("Searching for relevant news and updates related to: "
      ++ params.query ++ ". Analyzing sentiment and relevance.")
  | "token_analysis" =>
    Except.ok ("Conducting comprehensive technical and fundamental analysis for "
      ++ jsOrStr (match params.tokens with
          | some (JSVal.list (t :: _)) => some t
          | some (JSVal.str sv) => if sv == "" then none else some (sv.take 1)
          | _ => none) params.query
      ++ ".")
  | "protocol_analysis" =>
    Except.ok ("Evaluating "
      ++ (match params.protocols with
          | some (p :: _) => jsOrStr (some p) params.query
          | _ => params.query)
      ++ " protocol: TVL, yields, risk factors, and recommendations.")
  | "trend_analysis" =>
    Except.ok ("Analyzing current trends and market sentiment for: "
      ++ params.query ++ ". Providing actionable insights.")
  | _ => Except.ok "Executing research query."

/-- The body of the `try` block of `ResearchAgent.simulate`; the
justification step can throw. -/
def simulateBody (intent : AgentIntent) : Except String SimulationResult := do
  let params := parseResearchParameters intent
  let justification ← generateJustification params
  Except.ok
    { success := true,
      gasEstimate := 0,
      valueEstimate := 0,
      risk := RiskLevel.low,
      calls := [],
      justification := justification,
      warnings := [],
      confidence := 85/100 }

/-- `ResearchAgent.simulate`. -/
def simulate (intent : AgentIntent) : Except String SimulationResult := do
  validateIntent intent
  match simulateBody intent with
  | Except.ok r => Except.ok r
  | Except.error e =>
    Except.ok
      { success := false,
        gasEstimate := 0,
        valueEstimate := 0,
        risk := RiskLevel.low,
        calls := [],
        justification := "Failed to simulate research query: " ++ e,
        warnings := ["Research simulation failed"],
        confidence := 0 }

end ResearchAgent

/-! ## C3/C4: validation and simulate-failure behavior -/

theorem bind_validateIntent {α : Type} (i : AgentIntent)
    (f : Unit → Except String α) :
    (validateIntent i >>= f) =
      if intentSchemaValid i then f () else Except.error "Invalid intent" := by
  unfold validateIntent
  by_cases h : intentSchemaValid i <;> simp [h, Bind.bind, Except.bind]

theorem stakeBody_success {validators : List (String × ValidatorInfo)}
    {sa : String} {intent : AgentIntent} {r : SimulationResult}
    (h : StakeAgent.simulateBody validators sa intent = Except.ok r) :
    r.success = true := by
  unfold StakeAgent.simulateBody at h
  cases hp : StakeAgent.parseStakeParameters intent with
  | error e =>
    rw [hp] at h
    simp only [Bind.bind, Except.bind] at h
    exact Except.noConfusion h
  | ok params =>
    rw [hp] at h
    simp only [Bind.bind, Except.bind] at h
    cases hb : StakeAgent.buildStakeCalls validators sa params
        intent.userAddress with
    | error e =>
      rw [hb] at h
      simp only [Except.bind] at h
      exact Except.noConfusion h
    | ok calls =>
      rw [hb] at h
      simp only [Except.bind] at h
      cases hj : StakeAgent.generateStakeJustification validators params with
      | error e =>
        rw [hj] at h
        simp only [Except.bind] at h
        exact Except.noConfusion h
      | ok justification =>
        rw [hj] at h
        simp only [Except.bind] at h
        cases h
        rfl

theorem tradeBody_success {sa : String} {now : Rat} {intent : AgentIntent}
    {r : SimulationResult}
    (h : TradeAgent.simulateBody sa now intent = Except.ok r) :
    r.success = true := by
  unfold TradeAgent.simulateBody at h
  cases hp : TradeAgent.parseSwapParameters now intent with
  | error e =>
    rw [hp] at h
    simp only [Bind.bind, Except.bind] at h
    exact Except.noConfusion h
  | ok params =>
    rw [hp] at h
    simp only [Bind.bind, Except.bind] at h
    cases hq : TradeAgent.getSwapQuote params with
    | error e =>
      rw [hq] at h
      simp only [Except.bind] at h
      exact Except.noConfusion h
    | ok quote =>
      rw [hq] at h
      simp only [Except.bind] at h
      cases hb : TradeAgent.buildSwapCalls sa now params intent.userAddress with
      | error e =>
        rw [hb] at h
        simp only [Except.bind] at h
        exact Except.noConfusion h
      | ok calls =>
        rw [hb] at h
        simp only [Except.bind] at h
        cases h
        rfl

theorem portfolioBody_success {intent : AgentIntent} {r : SimulationResult}
    (h : PortfolioAgent.simulateBody intent = Except.ok r) :
    r.success = true := by
  unfold PortfolioAgent.simulateBody at h
  cases h
  rfl

theorem analyticsBody_success {intent : AgentIntent} {r : SimulationResult}
    (h : AnalyticsAgent.simulateBody intent = Except.ok r) :
    r.success = true := by
  simp only [AnalyticsAgent.simulateBody] at h
  cases hj : AnalyticsAgent.generateJustification
      (AnalyticsAgent.parseAnalyticsParameters intent) with
  | error e =>
    rw [hj] at h
    simp only [Bind.bind, Except.bind] at h
    exact Except.noConfusion h
  | ok j =>
    rw [hj] at h
    simp only [Bind.bind, Except.bind] at h
    cases h
    rfl

theorem researchBody_success {intent : AgentIntent} {r : SimulationResult}
    (h : ResearchAgent.simulateBody intent = Except.ok r) :
    r.success = true := by
  simp only [ResearchAgent.simulateBody] at h
  cases hj : ResearchAgent.generateJustification
      (ResearchAgent.parseResearchParameters intent) with
  | error e =>
    rw [hj] at h
    simp only [Bind.bind, Except.bind] at h
    exact Except.noConfusion h
  | ok j =>
    rw [hj] at h
    simp only [Bind.bind, Except.bind] at h
    cases h
    rfl

/-- Counterexample to C4: a schema-valid intent whose `transactionHash`
parameter holds a non-string value (the source's `parameters` bag is
`Record<string, unknown>`) makes `AnalyticsAgent.generateJustification`
throw inside the `try` — `params.transactionHash?.slice(0, 10)` is not a
function call on such a value — and the `catch` returns a failed
simulation with risk LOW, falsifying "risk is HIGH (never LOW)". -/
def intentBadTxHash : AgentIntent :=
  { id := "intent-3", userAddress := "0xuser", description := "",
    parameters := { operation := some "decode_transaction",
                    transactionHash := some JSVal.other },
    maxGas := 100000, maxValue := 0, deadline := 1000 }

/-- The failed result `AnalyticsAgent.simulate` returns on
`intentBadTxHash`. -/
def analyticsFailLow : SimulationResult :=
  { success := false, gasEstimate := 0, valueEstimate := 0,
    risk := RiskLevel.low, calls := [],
    justification := "Failed to simulate analytics query: params.transactionHash?.slice is not a function",
    warnings := ["Analytics simulation failed"], confidence := 0 }

/-- Counterexample to C4 as stated: the analytics agent returns a
simulation result with `success = false` whose risk is LOW, not HIGH. -/
theorem simulate_low_risk_failure_counterexample :
    AnalyticsAgent.simulate intentBadTxHash = Except.ok analyticsFailLow
    ∧ analyticsFailLow.success = false
    ∧ analyticsFailLow.risk = RiskLevel.low
    ∧ analyticsFailLow.risk ≠ RiskLevel.high := by
  refine ⟨rfl, rfl, rfl, by decide⟩

/-- C4 as amended: a returned simulation result with `success = false`
always has an empty `calls` sequence, and its risk depends on the agent:
HIGH for the Stake and Trade agents, but LOW for the Portfolio, Analytics
and Research agents (whose `catch` blocks hard-code risk LOW; for Analytics
and Research this is reachable through ill-typed parameter values, while
the Portfolio body cannot throw). -/
theorem simulate_failure_empty_calls_risk_by_agent
    (validators : List (String × ValidatorInfo))
    (sa ta : String) (now : Rat) (intent : AgentIntent)
    (r : SimulationResult) :
    (StakeAgent.simulate validators sa intent = Except.ok r →
      r.success = false → r.calls = [] ∧ r.risk = RiskLevel.high)
    ∧ (TradeAgent.simulate ta now intent = Except.ok r →
      r.success = false → r.calls = [] ∧ r.risk = RiskLevel.high)
    ∧ (PortfolioAgent.simulate intent = Except.ok r →
      r.success = false → r.calls = [] ∧ r.risk = RiskLevel.low)
    ∧ (AnalyticsAgent.simulate intent = Except.ok r →
      r.success = false → r.calls = [] ∧ r.risk = RiskLevel.low)
    ∧ (ResearchAgent.simulate intent = Except.ok r →
      r.success = false → r.calls = [] ∧ r.risk = RiskLevel.low) := by
  refine ⟨?_, ?_, ?_, ?_, ?_⟩
  · intro hok hfail
    unfold StakeAgent.simulate at hok
    rw [bind_validateIntent] at hok
    by_cases hv : intentSchemaValid intent
    · rw [if_pos hv] at hok
      cases hbody : StakeAgent.simulateBody validators sa intent with
      | ok r0 =>
        rw [hbody] at hok
        cases hok
        rw [stakeBody_success hbody] at hfail
        exact Bool.noConfusion hfail
      | error e =>
        rw [hbody] at hok
        cases hok
        exact ⟨rfl, rfl⟩
    · rw [if_neg hv] at hok
      exact Except.noConfusion hok
  · intro hok hfail
    unfold TradeAgent.simulate at hok
    rw [bind_validateIntent] at hok
    by_cases hv : intentSchemaValid intent
    · rw [if_pos hv] at hok
      cases hbody : TradeAgent.simulateBody ta now intent with
      | ok r0 =>
        rw [hbody] at hok
        cases hok
        rw [tradeBody_success hbody] at hfail
        exact Bool.noConfusion hfail
      | error e =>
        rw [hbody] at hok
        cases hok
        exact ⟨rfl, rfl⟩
    · rw [if_neg hv] at hok
      exact Except.noConfusion hok
  · intro hok hfail
    unfold PortfolioAgent.simulate at hok
    rw [bind_validateIntent] at hok
    by_cases hv : intentSchemaValid intent
    · rw [if_pos hv] at hok
      cases hbody : PortfolioAgent.simulateBody intent with
      | ok r0 =>
        rw [hbody] at hok
        cases hok
        rw [portfolioBody_success hbody] at hfail
        exact Bool.noConfusion hfail
      | error e =>
        unfold PortfolioAgent.simulateBody at hbody
        exact Except.noConfusion hbody
    · rw [if_neg hv] at hok
      exact Except.noConfusion hok
  · intro hok hfail
    unfold AnalyticsAgent.simulate at hok
    rw [bind_validateIntent] at hok
    by_cases hv : intentSchemaValid intent
    · rw [if_pos hv] at hok
      cases hbody : AnalyticsAgent.simulateBody intent with
      | ok r0 =>
        rw [hbody] at hok
        cases hok
        rw [analyticsBody_success hbody] at hfail
        exact Bool.noConfusion hfail
      | error e =>
        rw [hbody] at hok
        cases hok
        exact ⟨rfl, rfl⟩
    · rw [if_neg hv] at hok
      exact Except.noConfusion hok
  · intro hok hfail
    unfold ResearchAgent.simulate at hok
    rw [bind_validateIntent] at hok
    by_cases hv : intentSchemaValid intent
    · rw [if_pos hv] at hok
      cases hbody : ResearchAgent.simulateBody intent with
      | ok r0 =>
        rw [hbody] at hok
        cases hok
        rw [researchBody_success hbody] at hfail
        exact Bool.noConfusion hfail
      | error e =>
        rw [hbody] at hok
        cases hok
        exact ⟨rfl, rfl⟩
    · rw [if_neg hv] at hok
      exact Except.noConfusion hok


/-- A schema-valid intent with no `operation` parameter: the stake agent's
simulate body throws and the catch produces a failed result. -/
def intentNoOp : AgentIntent :=
  { id := "intent-1", userAddress := "0xuser", description := "",
    parameters := {}, maxGas := 100000, maxValue := 0, deadline := 1000 }

/-- The failed result `StakeAgent.simulate` returns on `intentNoOp`. -/
def stakeFailResult : SimulationResult :=
  { success := false, gasEstimate := 0, valueEstimate := 0,
    risk := RiskLevel.high, calls := [],
    justification :=
      "Failed to simulate staking operation: Missing required parameter: operation",
    warnings := ["Simulation failed - transaction may fail"], confidence := 0 }

/-- Witness for the amended C4 at concrete inputs: the stake agent's failed
simulation has empty calls and risk HIGH, while the analytics agent's
failed simulation has empty calls and risk LOW. -/
theorem simulate_failure_empty_calls_risk_by_agent_witness :
    (stakeFailResult.calls = [] ∧ stakeFailResult.risk = RiskLevel.high)
    ∧ (analyticsFailLow.calls = [] ∧ analyticsFailLow.risk = RiskLevel.low) :=
  ⟨(simulate_failure_empty_calls_risk_by_agent stakeValidators "0xstake"
      "0xswap" 0 intentNoOp stakeFailResult).1 (by rfl) (by rfl),
   (simulate_failure_empty_calls_risk_by_agent stakeValidators "0xstake"
      "0xswap" 0 intentBadTxHash analyticsFailLow).2.2.2.1 (by rfl) (by rfl)⟩

/-- An intent violating the schema: `maxGas = 0` fails Zod's
`z.number().positive()`. -/
def intentBadGas : AgentIntent :=
  { id := "intent-2", userAddress := "0xuser", description := "",
    parameters := { operation := some "stake", amount := some "10" },
    maxGas := 0, maxValue := 0, deadline := 1000 }

/-- Counterexample to C3: an intent that fails schema validation makes
`StakeAgent.simulate` (and `TradeAgent.simulate`) throw the validation
error to the caller instead of returning a failed SimulationResult —
`validateIntent` runs before the `try` block in every agent. -/
theorem validation_error_escapes :
    StakeAgent.simulate stakeValidators "0xstake" intentBadGas
      = Except.error "Invalid intent"
    ∧ TradeAgent.simulate "0xswap" 0 intentBadGas
      = Except.error "Invalid intent" := by
  have hv : intentSchemaValid intentBadGas = false := by decide
  constructor
  · unfold StakeAgent.simulate
    rw [bind_validateIntent, if_neg (by simp [hv])]
  · unfold TradeAgent.simulate
    rw [bind_validateIntent, if_neg (by simp [hv])]

/-- C3 as amended: a schema-validation failure is **not** caught —
`simulate`/`execute` throw it to the caller (`validateIntent` runs before
the `try` block) — while an intent that passes schema validation never
escapes as an exception: every error raised inside the method body is
caught and converted into a returned result. -/
theorem validation_error_amended (validators : List (String × ValidatorInfo))
    (sa ta : String) (now : Rat) (txHash : String) (randGas nowMs : Nat)
    (intent : AgentIntent) :
    (intentSchemaValid intent = false →
      StakeAgent.simulate validators sa intent = Except.error "Invalid intent"
      ∧ StakeAgent.execute validators sa txHash nowMs intent
        = Except.error "Invalid intent"
      ∧ TradeAgent.simulate ta now intent = Except.error "Invalid intent"
      ∧ TradeAgent.execute ta now txHash randGas nowMs intent
        = Except.error "Invalid intent"
      ∧ PortfolioAgent.simulate intent = Except.error "Invalid intent"
      ∧ AnalyticsAgent.simulate intent = Except.error "Invalid intent"
      ∧ ResearchAgent.simulate intent = Except.error "Invalid intent")
    ∧ (intentSchemaValid intent = true →
      (∃ r, StakeAgent.simulate validators sa intent = Except.ok r)
      ∧ (∃ r, StakeAgent.execute validators sa txHash nowMs intent
          = Except.ok r)
      ∧ (∃ r, TradeAgent.simulate ta now intent = Except.ok r)
      ∧ (∃ r, TradeAgent.execute ta now txHash randGas nowMs intent
          = Except.ok r)
      ∧ (∃ r, PortfolioAgent.simulate intent = Except.ok r)
      ∧ (∃ r, AnalyticsAgent.simulate intent = Except.ok r)
      ∧ (∃ r, ResearchAgent.simulate intent = Except.ok r)) := by
  constructor
  · intro hv
    have hv' : ¬ (intentSchemaValid intent = true) := by simp [hv]
    refine ⟨?_, ?_, ?_, ?_, ?_, ?_, ?_⟩ <;>
      first
      | (unfold StakeAgent.simulate; rw [bind_validateIntent, if_neg hv'])
      | (unfold StakeAgent.execute; rw [bind_validateIntent, if_neg hv'])
      | (unfold TradeAgent.simulate; rw [bind_validateIntent, if_neg hv'])
      | (unfold TradeAgent.execute; rw [bind_validateIntent, if_neg hv'])
      | (unfold PortfolioAgent.simulate; rw [bind_validateIntent, if_neg hv'])
      | (unfold AnalyticsAgent.simulate; rw [bind_validateIntent, if_neg hv'])
      | (unfold ResearchAgent.simulate; rw [bind_validateIntent, if_neg hv'])
  · intro hv
    refine ⟨?_, ?_, ?_, ?_, ?_, ?_, ?_⟩
    · unfold StakeAgent.simulate
      rw [bind_validateIntent, if_pos hv]
      cases hb : StakeAgent.simulateBody validators sa intent with
      | ok r0 => exact ⟨r0, rfl⟩
      | error e => exact ⟨_, rfl⟩
    · unfold StakeAgent.execute
      rw [bind_validateIntent, if_pos hv]
      cases hb : StakeAgent.executeBody validators sa txHash nowMs intent with
      | ok r0 => exact ⟨r0, rfl⟩
      | error e => exact ⟨_, rfl⟩
    · unfold TradeAgent.simulate
      rw [bind_validateIntent, if_pos hv]
      cases hb : TradeAgent.simulateBody ta now intent with
      | ok r0 => exact ⟨r0, rfl⟩
      | error e => exact ⟨_, rfl⟩
    · unfold TradeAgent.execute
      rw [bind_validateIntent, if_pos hv]
      cases hb : TradeAgent.executeBody ta now txHash randGas nowMs intent with
      | ok r0 => exact ⟨r0, rfl⟩
      | error e => exact ⟨_, rfl⟩
    · unfold PortfolioAgent.simulate
      rw [bind_validateIntent, if_pos hv]
      cases hb : PortfolioAgent.simulateBody intent with
      | ok r0 => exact ⟨r0, rfl⟩
      | error e => exact ⟨_, rfl⟩
    · unfold AnalyticsAgent.simulate
      rw [bind_validateIntent, if_pos hv]
      cases hb : AnalyticsAgent.simulateBody intent with
      | ok r0 => exact ⟨r0, rfl⟩
      | error e => exact ⟨_, rfl⟩
    · unfold ResearchAgent.simulate
      rw [bind_validateIntent, if_pos hv]
      cases hb : ResearchAgent.simulateBody intent with
      | ok r0 => exact ⟨r0, rfl⟩
      | error e => exact ⟨_, rfl⟩

/-- Witness for the amended C3 at concrete inputs: the invalid intent makes
every public method throw; the valid intent always gets a returned result
from `StakeAgent.simulate`. -/
theorem validation_error_amended_witness :
    StakeAgent.simulate stakeValidators "0xstake" intentBadGas
      = Except.error "Invalid intent"
    ∧ (∃ r, StakeAgent.simulate stakeValidators "0xstake" intentNoOp
      = Except.ok r) :=
  ⟨((validation_error_amended stakeValidators "0xstake" "0xswap" 0 "0xhash"
      0 0 intentBadGas).1 (by decide)).1,
   ((validation_error_amended stakeValidators "0xstake" "0xswap" 0 "0xhash"
      0 0 intentNoOp).2 (by decide)).1⟩

/-! ## Router plan execution and simulation (src/ai/agents/router.ts) -/

/-- The failed ExecutionResult pushed by the `catch` block of
`executePlan`; `now` models `Date.now()`. -/
def mkCaughtResult (msg : String) (now : Nat) : ExecutionResult :=
  { success := false, error := some msg, calls := [], timestamp := now }

/-- One step of `executePlan`'s `try` block up to `agent.execute`:
capability dispatch (throwing when no agent matches) followed by the first
matching agent's `execute`. -/
def stepDispatchExecute (reg : AgentRegistry) (step : AgentIntent) :
    Except String ExecutionResult :=
  let capability := inferCapabilityFromStep step
  match reg.getByCapability capability with
  | [] => Except.error ("No agent found for capability: " ++ capability)
  | agent :: _ => agent.execute step

/-- `CoreRouter.executePlan`: results accumulate in order; a failed step
with priority other than 'low' stops the loop, and any caught error is
recorded as a failed result and stops the loop unconditionally. -/
def executePlan (reg : AgentRegistry) (now : Nat) :
    List AgentIntent → List ExecutionResult
  | [] => []
  | step :: rest =>
    match stepDispatchExecute reg step with
    | Except.ok result =>
      if result.success = false ∧ step.priority ≠ some Priority.low then
        [result]
      else result :: executePlan reg now rest
    | Except.error e => [mkCaughtResult e now]

/-- The synthetic failed SimulationResult `simulatePlan` pushes for a step
whose capability matches no registered agent. -/
def syntheticMissResult (capability : String) : SimulationResult :=
  { success := false, gasEstimate := 0, valueEstimate := 0,
    risk := RiskLevel.high, calls := [],
    justification := "No agent found for capability: " ++ capability,
    warnings := ["Missing agent for " ++ capability], confidence := 0 }

/-- `CoreRouter.simulatePlan`: one result per step, continuing past
capability misses; an agent's `simulate` rejection propagates and rejects
the whole call. -/
def simulatePlan (reg : AgentRegistry) :
    List AgentIntent → Except String (List SimulationResult)
  | [] => Except.ok []
  | step :: rest =>
    let capability := inferCapabilityFromStep step
    match reg.getByCapability capability with
    | [] => do
      let rs ← simulatePlan reg rest
      Except.ok (syntheticMissResult capability :: rs)
    | agent :: _ => do
      let r ← agent.simulate step
      let rs ← simulatePlan reg rest
      Except.ok (r :: rs)

/-- The first agent `simulatePlan`/`executePlan` dispatch a step to. -/
def firstAgentFor (reg : AgentRegistry) (step : AgentIntent) :
    Option Agent :=
  (reg.getByCapability (inferCapabilityFromStep step)).head?

/-- C2: `executePlan` processes steps strictly in order.  If every step
before some failing step dispatches, returns a result and does not halt
(success, or failure at priority 'low'), and the failing step returns
`success = false` with priority other than 'low', then the output is
exactly the results of the steps up to and including the failing one, and
no later step contributes.  A failing step at priority 'low' lets
execution continue with the rest of the plan. -/
theorem executePlan_fail_fast (reg : AgentRegistry) (now : Nat)
    (res : AgentIntent → ExecutionResult) (pre : List AgentIntent)
    (failStep : AgentIntent) (post : List AgentIntent)
    (hpre : ∀ s ∈ pre, stepDispatchExecute reg s = Except.ok (res s)
      ∧ ¬((res s).success = false ∧ s.priority ≠ some Priority.low))
    (hfail : stepDispatchExecute reg failStep = Except.ok (res failStep))
    (hfs : (res failStep).success = false)
    (hfp : failStep.priority ≠ some Priority.low) :
    executePlan reg now (pre ++ failStep :: post)
      = pre.map res ++ [res failStep]
    ∧ ∀ (s : AgentIntent) (rest : List AgentIntent) (r : ExecutionResult),
        stepDispatchExecute reg s = Except.ok r → r.success = false →
        s.priority = some Priority.low →
        executePlan reg now (s :: rest) = r :: executePlan reg now rest := by
  constructor
  · induction pre with
    | nil =>
      simp only [List.nil_append, List.map_nil]
      unfold executePlan
      simp only [hfail]
      rw [if_pos ⟨hfs, hfp⟩]
    | cons s pre' ih =>
      have hs := hpre s (List.mem_cons_self s pre')
      have hrest : ∀ s' ∈ pre', stepDispatchExecute reg s'
          = Except.ok (res s')
          ∧ ¬((res s').success = false ∧ s'.priority ≠ some Priority.low) :=
        fun s' hs' => hpre s' (List.mem_cons_of_mem s hs')
      simp only [List.cons_append, List.map_cons]
      unfold executePlan
      simp only [hs.1]
      rw [if_neg hs.2, ih hrest]
  · intro s rest r hok hfailr hlow
    simp only [executePlan, hok]
    rw [if_neg (by
      intro hcontra
      exact hcontra.2 hlow)]

/-- Concrete fixtures for the plan-level witnesses. -/
def execOkResult : ExecutionResult :=
  { success := true, calls := [], timestamp := 0 }

def execFailResult : ExecutionResult :=
  { success := false, calls := [], error := some "boom", timestamp := 0 }

/-- A stake-capable agent whose `execute` fails exactly on the step with
id "2". -/
def planAgent : Agent :=
  { id := "stake-agent", name := "Stake Agent", capabilities := ["stake"],
    simulate := fun _ => Except.ok demoSimResult,
    execute := fun s =>
      Except.ok (if s.id == "2" then execFailResult else execOkResult) }

def planReg : AgentRegistry := AgentRegistry.register [] planAgent

def planResult (s : AgentIntent) : ExecutionResult :=
  if s.id == "2" then execFailResult else execOkResult

/-- A staking step with the given id and priority. -/
def stakeStep (i : String) (prio : Option Priority) : AgentIntent :=
  { id := i, userAddress := "0xuser", description := "",
    parameters := { operation := some "stake", amount := some "10" },
    maxGas := 300000, maxValue := 10, deadline := 1000, priority := prio }

/-- A step whose inferred capability is "unknown" (no agent serves it). -/
def sMiss : AgentIntent :=
  { id := "m", userAddress := "0xuser", description := "",
    parameters := { operation := some "mint" },
    maxGas := 100000, maxValue := 0, deadline := 1000,
    priority := some Priority.low }

/-- Witness for C2 at a concrete 3-step plan: a medium-priority failure at
step 2 yields exactly two results; the same plan with step 2 at priority
'low' yields three. -/
theorem executePlan_fail_fast_witness :
    executePlan planReg 0 [stakeStep "1" (some Priority.medium),
        stakeStep "2" (some Priority.medium),
        stakeStep "3" (some Priority.medium)]
      = [execOkResult, execFailResult]
    ∧ executePlan planReg 0 [stakeStep "1" (some Priority.medium),
        stakeStep "2" (some Priority.low),
        stakeStep "3" (some Priority.medium)]
      = [execOkResult, execFailResult, execOkResult] := by
  have h := executePlan_fail_fast planReg 0 planResult
    [stakeStep "1" (some Priority.medium)]
    (stakeStep "2" (some Priority.medium))
    [stakeStep "3" (some Priority.medium)]
    (by
      intro s hs
      simp only [List.mem_singleton] at hs
      subst hs
      exact ⟨rfl, by decide⟩)
    rfl rfl (by decide)
  constructor
  · exact h.1.trans rfl
  · have h2 := h.2 (stakeStep "2" (some Priority.low))
      [stakeStep "3" (some Priority.medium)] execFailResult rfl rfl rfl
    rw [show executePlan planReg 0 [stakeStep "1" (some Priority.medium),
        stakeStep "2" (some Priority.low), stakeStep "3" (some Priority.medium)]
        = execOkResult :: executePlan planReg 0 [stakeStep "2" (some Priority.low),
          stakeStep "3" (some Priority.medium)] from rfl, h2]
    rfl

/-- Counterexample to C5: a dispatch miss on a priority-'low' step halts
the plan — the caught error `break`s unconditionally — so the second step
is never attempted and only one result is returned (the claim predicts
two). -/
theorem executePlan_miss_halts_counterexample :
    executePlan planReg 7 [sMiss, stakeStep "1" (some Priority.medium)]
      = [mkCaughtResult "No agent found for capability: unknown" 7]
    ∧ (executePlan planReg 7
        [sMiss, stakeStep "1" (some Priority.medium)]).length = 1 := by
  constructor <;> rfl

/-- C5 as amended: a step whose capability matches no registered agent is
recorded as a failed ExecutionResult carrying the explanatory message (no
exception reaches the caller), but it always halts the plan: later steps
are not attempted, regardless of the step's priority. -/
theorem executePlan_miss_recorded_and_halts (reg : AgentRegistry) (now : Nat)
    (step : AgentIntent) (rest : List AgentIntent)
    (h : reg.getByCapability (inferCapabilityFromStep step) = []) :
    executePlan reg now (step :: rest)
      = [mkCaughtResult ("No agent found for capability: "
          ++ inferCapabilityFromStep step) now] := by
  simp only [executePlan, stepDispatchExecute, h]

/-- Witness for the amended C5: the dispatch miss at a 'low'-priority step
yields the single failed result. -/
theorem executePlan_miss_recorded_and_halts_witness :
    executePlan planReg 7 [sMiss, stakeStep "1" (some Priority.medium)]
      = [mkCaughtResult ("No agent found for capability: "
          ++ inferCapabilityFromStep sMiss) 7] :=
  executePlan_miss_recorded_and_halts planReg 7 sMiss
    [stakeStep "1" (some Priority.medium)] rfl

/-- C8: when every dispatched agent's `simulate` returns (rather than
rejects), `simulatePlan` produces exactly one result per step, in step
order: the synthetic failed result (success false, risk high, confidence 0,
empty calls) for a step with no matching agent — continuing with the rest
of the plan — and the first matching agent's simulation result otherwise. -/
theorem simulatePlan_one_result_per_step (reg : AgentRegistry)
    (res : AgentIntent → SimulationResult) (steps : List AgentIntent)
    (h : ∀ s ∈ steps, ∀ a, firstAgentFor reg s = some a →
      a.simulate s = Except.ok (res s)) :
    simulatePlan reg steps = Except.ok (steps.map (fun s =>
      match firstAgentFor reg s with
      | none => syntheticMissResult (inferCapabilityFromStep s)
      | some _ => res s)) := by
  induction steps with
  | nil => rfl
  | cons s rest ih =>
    have hrest : ∀ s' ∈ rest, ∀ a, firstAgentFor reg s' = some a →
        a.simulate s' = Except.ok (res s') :=
      fun s' hs' => h s' (List.mem_cons_of_mem s hs')
    simp only [simulatePlan, List.map_cons]
    cases hga : reg.getByCapability (inferCapabilityFromStep s) with
    | nil =>
      have hfa : firstAgentFor reg s = none := by
        simp [firstAgentFor, hga]
      simp only [hfa, ih hrest, Bind.bind, Except.bind]
    | cons a rest' =>
      have hfa : firstAgentFor reg s = some a := by
        simp [firstAgentFor, hga]
      have hsim := h s (List.mem_cons_self s rest) a hfa
      simp only [hsim, ih hrest, hfa, Bind.bind, Except.bind]

/-- Witness for C8: a two-step plan whose first step has no serving agent
and whose second dispatches to the stake agent yields the synthetic miss
result followed by the agent's simulation result. -/
theorem simulatePlan_one_result_per_step_witness :
    simulatePlan planReg [sMiss, stakeStep "1" (some Priority.medium)]
      = Except.ok [syntheticMissResult "unknown", demoSimResult] := by
  have h := simulatePlan_one_result_per_step planReg (fun _ => demoSimResult)
    [sMiss, stakeStep "1" (some Priority.medium)]
    (by
      intro s hs a ha
      simp only [List.mem_cons, List.not_mem_nil, or_false] at hs
      rcases hs with rfl | rfl
      · rw [show firstAgentFor planReg sMiss = none from rfl] at ha
        exact Option.noConfusion ha
      · rw [show firstAgentFor planReg
            (stakeStep "1" (some Priority.medium)) = some planAgent
            from rfl] at ha
        cases ha
        rfl)
  exact h.trans rfl

/-! ## Router per-user memory (src/ai/agents/router.ts) -/

structure UserPreferences where
  maxSpendPerIntent : Rat
  defaultSlippage : Rat
  allowedProtocols : List String
  allowedContracts : List String
  defaultCurrency : String
  riskTolerance : Priority
  auto2FA : Bool
  auto2FAThreshold : Rat
  deriving DecidableEq, Repr

/-- The defaults returned by `getUserPreferences` for an unknown user. -/
def defaultPreferences : UserPreferences :=
  { maxSpendPerIntent := 10000, defaultSlippage := 1,
    allowedProtocols := [], allowedContracts := [],
    defaultCurrency := "STT", riskTolerance := Priority.medium,
    auto2FA := true, auto2FAThreshold := 1000 }

structure UserMemory where
  address : String
  preferences : UserPreferences
  recentIntents : List String
  frequentOperations : List (String × Nat)
  lastUpdated : Nat
  deriving DecidableEq, Repr

/-- The router's `userMemory = new Map<string, UserMemory>()`. -/
abbrev RouterMemory := List (String × UserMemory)

def getUserPreferences (mem : RouterMemory) (userAddress : String) :
    UserPreferences :=
  match mapGet mem userAddress with
  | some m => m.preferences
  | none => defaultPreferences

/-- JS `array.slice(-n)`: the last `n` entries (the whole array when it is
shorter). -/
def lastN (n : Nat) (xs : List String) : List String :=
  xs.drop (xs.length - n)

/-- `CoreRouter.recordIntent`; `now` models `Date.now()`. -/
def recordIntent (mem : RouterMemory) (now : Nat)
    (userAddress intent : String) : RouterMemory :=
  match mapGet mem userAddress with
  | none =>
    mapSet mem userAddress
      { address := userAddress,
        preferences := getUserPreferences mem userAddress,
        recentIntents := [intent],
        frequentOperations := [(intent, 1)],
        lastUpdated := now }
  | some m =>
    let recent := m.recentIntents ++ [intent]
    let recent :=
      if recent.length > 50 then recent.drop (recent.length - 50) else recent
    let count := (mapGet m.frequentOperations intent).getD 0
    mapSet mem userAddress
      { m with recentIntents := recent,
               frequentOperations := mapSet m.frequentOperations intent
                 (count + 1),
               lastUpdated := now }

/-- `CoreRouter.clearUserMemory`. -/
def clearUserMemory (mem : RouterMemory) (userAddress : String) :
    RouterMemory :=
  mapDelete mem userAddress

/-- The stored recent-intent history of a user (empty when no entry). -/
def historyOf (mem : RouterMemory) (u : String) : List String :=
  match mapGet mem u with
  | some m => m.recentIntents
  | none => []

/-- A sequence of `recordIntent` calls applied to the fresh router state. -/
def runRecords (now : Nat) (calls : List (String × String)) : RouterMemory :=
  calls.foldl (fun mem c => recordIntent mem now c.1 c.2) []

/-- The intents recorded for one user, in call order. -/
def intentsFor (calls : List (String × String)) (u : String) : List String :=
  (calls.filter (fun c => c.1 == u)).map Prod.snd

theorem lastN_length_le (n : Nat) (xs : List String) :
    (lastN n xs).length ≤ n := by
  simp only [lastN, List.length_drop]
  omega

theorem recordIntent_history_self (mem : RouterMemory) (now : Nat)
    (u i : String) :
    historyOf (recordIntent mem now u i) u
      = lastN 50 (historyOf mem u ++ [i]) := by
  unfold recordIntent historyOf
  cases hm : mapGet mem u with
  | none =>
    rw [mapGet_mapSet_self]
    simp [lastN]
  | some m =>
    rw [mapGet_mapSet_self]
    simp only [lastN, List.nil_append]
    by_cases h : (m.recentIntents ++ [i]).length > 50
    · rw [if_pos h]
    · rw [if_neg h, Nat.sub_eq_zero_of_le (by omega), List.drop_zero]

theorem recordIntent_history_other (mem : RouterMemory) (now : Nat)
    (u u' i : String) (h : u ≠ u') :
    historyOf (recordIntent mem now u i) u' = historyOf mem u' := by
  unfold recordIntent historyOf
  cases hm : mapGet mem u <;> rw [mapGet_mapSet_ne _ _ _ _ h]

theorem lastN_lastN_append (n : Nat) (xs ys : List String) :
    lastN n (lastN n xs ++ ys) = lastN n (xs ++ ys) := by
  unfold lastN
  rw [List.drop_append_eq_append_drop, List.drop_append_eq_append_drop,
    List.drop_drop]
  congr 1
  · congr 1
    simp only [List.length_append, List.length_drop]
    omega
  · congr 1
    simp only [List.length_append, List.length_drop]
    omega

theorem recordIntent_bounded (mem : RouterMemory) (now : Nat)
    (u i : String) (hb : ∀ u', (historyOf mem u').length ≤ 50) :
    ∀ u', (historyOf (recordIntent mem now u i) u').length ≤ 50 := by
  intro u'
  by_cases hu : u = u'
  · subst hu
    rw [recordIntent_history_self]
    exact lastN_length_le _ _
  · rw [recordIntent_history_other mem now u u' i hu]
    exact hb u'

theorem runRecords_history (now : Nat) (calls : List (String × String)) :
    ∀ mem : RouterMemory, (∀ u', (historyOf mem u').length ≤ 50) → ∀ u,
    historyOf (calls.foldl (fun m c => recordIntent m now c.1 c.2) mem) u
      = lastN 50 (historyOf mem u ++ intentsFor calls u) := by
  induction calls with
  | nil =>
    intro mem hb u
    simp only [List.foldl_nil, intentsFor, List.filter_nil, List.map_nil,
      List.append_nil, lastN]
    rw [Nat.sub_eq_zero_of_le (hb u), List.drop_zero]
  | cons c rest ih =>
    intro mem hb u
    simp only [List.foldl_cons]
    rw [ih (recordIntent mem now c.1 c.2) (recordIntent_bounded mem now c.1
      c.2 hb) u]
    by_cases hcu : c.1 = u
    · rw [hcu, recordIntent_history_self, lastN_lastN_append]
      congr 1
      rw [List.append_assoc, List.singleton_append]
      congr 1
      unfold intentsFor
      rw [List.filter_cons_of_pos (by simpa using hcu)]
      rfl
    · rw [recordIntent_history_other mem now c.1 u c.2 hcu]
      congr 2
      unfold intentsFor
      rw [List.filter_cons_of_neg (by simpa using hcu)]

/-- C9: after any sequence of `recordIntent` calls from a fresh router, each
user's stored recent-intent history is exactly the last 50 intents recorded
for that user, in order (hence at most 50 entries); every single
`recordIntent` call leaves the history at 50 entries or fewer; and
`clearUserMemory` removes the user's memory entry entirely. -/
theorem recordIntent_memory_spec (now : Nat)
    (calls : List (String × String)) (u : String) :
    historyOf (runRecords now calls) u = lastN 50 (intentsFor calls u)
    ∧ (historyOf (runRecords now calls) u).length ≤ 50
    ∧ (∀ (mem : RouterMemory) (now' : Nat) (u₀ i : String),
        (historyOf (recordIntent mem now' u₀ i) u₀).length ≤ 50)
    ∧ (∀ (mem : RouterMemory) (u' : String),
        mapGet (clearUserMemory mem u') u' = none) := by
  have hempty : ∀ u', (historyOf ([] : RouterMemory) u').length ≤ 50 := by
    intro u'
    simp [historyOf, mapGet, List.find?]
  have h := runRecords_history now calls [] hempty u
  have hnil : historyOf ([] : RouterMemory) u = [] := by
    simp [historyOf, mapGet, List.find?]
  rw [hnil, List.nil_append] at h
  refine ⟨h, ?_, ?_, ?_⟩
  · rw [show runRecords now calls
      = calls.foldl (fun m c => recordIntent m now c.1 c.2) [] from rfl, h]
    exact lastN_length_le _ _
  · intro mem now' u₀ i
    rw [recordIntent_history_self]
    exact lastN_length_le _ _
  · intro mem u'
    exact mapGet_mapDelete_self mem u'
